import Mathlib

/-!
Verification of the Engineering-thermodynamics repository's state-resolution
engine against its natural-language specification.

The development shallowly embeds:
  * the fixed-point propagation loop shared by `solve_otto_cycle`
    (src/otto_solver.py) and `solve_diesel_cycle` (src/thermo/diesel_solver.py),
  * the Otto and Diesel rule sets (`system_variables`, `step_1` .. `step_4`),
  * the `known`/`unknown`/`count_nans` helpers
    (src/thermo/solver_helper_functions.py),
  * the table layer of src/thermo/apdx_functions.py: the `np.interp`-based 1-D
    lookups, the quality routines `x_from_PT_and_var` and
    `vars_from_x_and_quality_var`, and the superheated 2-D lookup
    `get_apdx_8c`/`get_apdx_9c`.

Modelling conventions, stated once:
  * Python's NaN-as-unknown sentinel is `Option α`: `none` is NaN,
    `some x` a known value.  `known`/`unknown` are `np.isnan` tests and never
    inspect the numeric payload, exactly as in the Python code, so the
    solver's control flow depends only on the `Option` structure.
  * Numeric values are abstract: a `NumOps α` record carries the arithmetic
    (`+ - * / **` and the literal `1`) and a `Tables α` record carries the
    CSV-backed lookup functions `get_apdx_1/4/7` (the CSV data files are not
    part of the sources, so lookups are oracles).  Every rule is written
    with the same operand structure as the Python expression it mirrors.
  * Python's `while True:` solve loop is `run_loop` with an explicit fuel
    argument; `run_loop_fuel_irrelevant` proves the fuel never runs out for
    the fuel the solvers pass, so the embedding agrees with the unbounded
    loop.  The returned `Nat` is the Python local `counter` (passes made).
  * The table functions over rationals use `ℚ`; float rounding is not
    modelled, only the branch structure and exact field arithmetic.
-/

/-! ## The generic propagation loop

Python (src/otto_solver.py lines 817-853, src/thermo/diesel_solver.py lines
783-819):

    previous_nan_count = count_nans(variables); counter = 0
    while True:
        counter += 1
        variables = <one full rule pass>
        current_nan_count = count_nans(variables)
        if current_nan_count == 0 or current_nan_count >= previous_nan_count:
            break
        previous_nan_count = current_nan_count
    return variables
-/

def run_loop {V : Type} (f : V → V) (cnt : V → Nat) : Nat → Nat → V → V × Nat
  | 0, _, v => (v, 0)
  | fuel + 1, prev, v =>
    let v2 := f v
    let cur := cnt v2
    if cur = 0 ∨ prev ≤ cur then (v2, 1)
    else
      let r := run_loop f cnt fuel cur v2
      (r.1, r.2 + 1)

theorem run_loop_fuel_irrelevant {V : Type} (f : V → V) (cnt : V → Nat) :
    ∀ fuel1 fuel2 prev v, prev < fuel1 → prev < fuel2 →
      run_loop f cnt fuel1 prev v = run_loop f cnt fuel2 prev v := by
  intro fuel1
  induction fuel1 with
  | zero => intro fuel2 prev v h1 _; omega
  | succ n ih =>
    intro fuel2 prev v h1 h2
    cases fuel2 with
    | zero => omega
    | succ m =>
      simp only [run_loop]
      by_cases hstop : cnt (f v) = 0 ∨ prev ≤ cnt (f v)
      · simp [hstop]
      · have hcur : cnt (f v) < prev := by omega
        simp only [hstop, if_false]
        rw [ih m (cnt (f v)) (f v) (by omega) (by omega)]

theorem run_loop_counter_le {V : Type} (f : V → V) (cnt : V → Nat) :
    ∀ fuel prev v, prev < fuel → (run_loop f cnt fuel prev v).2 ≤ max 1 prev := by
  intro fuel
  induction fuel with
  | zero => intro prev v h; omega
  | succ n ih =>
    intro prev v h
    simp only [run_loop]
    by_cases hstop : cnt (f v) = 0 ∨ prev ≤ cnt (f v)
    · simp [hstop]
    · have hcur : cnt (f v) < prev := by omega
      have hne : cnt (f v) ≠ 0 := by omega
      have hrec := ih (cnt (f v)) (f v) (by omega)
      simp only [hstop, if_false]
      have : max 1 (cnt (f v)) = cnt (f v) := by omega
      omega

/-- The loop only stops in a stopping state: the returned state is the result
of one final pass from some state `u`, and either its unknown count is zero or
that final pass made no progress (count did not drop below `cnt u`). -/
theorem run_loop_final {V : Type} (f : V → V) (cnt : V → Nat) :
    ∀ fuel v, cnt v < fuel →
      ∃ u, (run_loop f cnt fuel (cnt v) v).1 = f u ∧
        (cnt (run_loop f cnt fuel (cnt v) v).1 = 0 ∨
          cnt u ≤ cnt (run_loop f cnt fuel (cnt v) v).1) := by
  intro fuel
  induction fuel with
  | zero => intro v h; omega
  | succ n ih =>
    intro v h
    simp only [run_loop]
    by_cases hstop : cnt (f v) = 0 ∨ cnt v ≤ cnt (f v)
    · refine ⟨v, ?_⟩; simp [hstop]
    · have hcur : cnt (f v) < cnt v := by omega
      simp only [hstop, if_false]
      exact ih (f v) (by omega)

/-- Preservation of a binary relation along the loop. -/
theorem run_loop_rel {V : Type} (f : V → V) (cnt : V → Nat)
    (R : V → V → Prop) (hrefl : ∀ u, R u u)
    (htrans : ∀ a b c, R a b → R b c → R a c)
    (hstep : ∀ u, R u (f u)) :
    ∀ fuel prev v, R v (run_loop f cnt fuel prev v).1 := by
  intro fuel
  induction fuel with
  | zero => intro prev v; exact hrefl v
  | succ n ih =>
    intro prev v
    simp only [run_loop]
    by_cases hstop : cnt (f v) = 0 ∨ prev ≤ cnt (f v)
    · simp only [hstop, if_true]; exact hstep v
    · simp only [hstop, if_false]
      exact htrans _ _ _ (hstep v) (ih (cnt (f v)) (f v))

/-- Preservation of an observation left untouched by every pass. -/
theorem run_loop_invariant {V α : Type} (f : V → V) (cnt : V → Nat)
    (g : V → α) (hstep : ∀ u, g (f u) = g u) :
    ∀ fuel prev v, g (run_loop f cnt fuel prev v).1 = g v := by
  intro fuel
  induction fuel with
  | zero => intro prev v; rfl
  | succ n ih =>
    intro prev v
    simp only [run_loop]
    by_cases hstop : cnt (f v) = 0 ∨ prev ≤ cnt (f v)
    · simp only [hstop, if_true]; exact hstep v
    · simp only [hstop, if_false]
      rw [ih (cnt (f v)) (f v), hstep v]

/-! ## NaN-as-unknown helpers (src/thermo/solver_helper_functions.py) -/

/-- `known(var) = not np.isnan(var)`. -/
def known {α : Type} (x : Option α) : Bool := !x.isNone

/-- `unknown(var) = np.isnan(var)`. -/
def unknown {α : Type} (x : Option α) : Bool := x.isNone

/-- Contribution of one leaf value to `count_nans`. -/
def nanCount {α : Type} (x : Option α) : Nat := if x.isNone then 1 else 0

theorem known_some {α : Type} (x : α) : known (some x) = true := rfl

theorem unknown_some {α : Type} (x : α) : unknown (some x) = false := rfl

theorem nanCount_eq_zero {α : Type} (x : Option α) :
    nanCount x = 0 ↔ x.isNone = false := by
  cases x <;> simp [nanCount]

/-! ## Data model: cycle states

Python keeps one nested dict per cycle (src/otto_solver.py
`define_empty_variables`, src/thermo/diesel_solver.py same): cycle-level
scalars plus four state-point dicts keyed `'1'..'4'`, each with
`T P v s h u`.  The dict keys `'1'..'4'` are the fields `p1..p4` here. -/

structure StatePoint (α : Type) where
  T : Option α
  P : Option α
  v : Option α
  s : Option α
  h : Option α
  u : Option α
deriving Repr, DecidableEq

structure OttoVars (α : Type) where
  r : Option α
  R : Option α
  cv : Option α
  gamma : Option α
  Qh : Option α
  Qc : Option α
  Wi : Option α
  Wo : Option α
  W : Option α
  n : Option α
  p1 : StatePoint α
  p2 : StatePoint α
  p3 : StatePoint α
  p4 : StatePoint α
deriving Repr, DecidableEq

structure DieselVars (α : Type) where
  r : Option α
  rc : Option α
  R : Option α
  cv : Option α
  cp : Option α
  gamma : Option α
  Qh : Option α
  Qc : Option α
  Wi : Option α
  Wo : Option α
  W : Option α
  n : Option α
  p1 : StatePoint α
  p2 : StatePoint α
  p3 : StatePoint α
  p4 : StatePoint α
deriving Repr, DecidableEq

/-- Leaf count of `count_nans` restricted to one state point. -/
def spCount {α : Type} (p : StatePoint α) : Nat :=
  nanCount p.T + nanCount p.P + nanCount p.v + nanCount p.s +
    nanCount p.h + nanCount p.u

/-- `count_nans` over an Otto variable set: 10 cycle scalars + 4 × 6 leaves. -/
def otto_count_nans {α : Type} (x : OttoVars α) : Nat :=
  nanCount x.r + nanCount x.R + nanCount x.cv + nanCount x.gamma +
    nanCount x.Qh + nanCount x.Qc + nanCount x.Wi + nanCount x.Wo +
    nanCount x.W + nanCount x.n +
    spCount x.p1 + spCount x.p2 + spCount x.p3 + spCount x.p4

/-- `count_nans` over a Diesel variable set: 12 cycle scalars + 4 × 6 leaves. -/
def diesel_count_nans {α : Type} (x : DieselVars α) : Nat :=
  nanCount x.r + nanCount x.rc + nanCount x.R + nanCount x.cv +
    nanCount x.cp + nanCount x.gamma + nanCount x.Qh + nanCount x.Qc +
    nanCount x.Wi + nanCount x.Wo + nanCount x.W + nanCount x.n +
    spCount x.p1 + spCount x.p2 + spCount x.p3 + spCount x.p4

/-- The arithmetic the Python float expressions use: `+ - * /`, the binary
`**`, and the literal `1`.  Kept abstract: the solver's branching never
inspects numeric values, so every structural theorem holds for any carrier. -/
structure NumOps (α : Type) where
  add : α → α → α
  sub : α → α → α
  mul : α → α → α
  div : α → α → α
  pow : α → α → α
  one : α

/-- The CSV-backed lookups of src/thermo/apdx_functions.py used by the two
solvers, as oracles (the Appendix-data CSV files are not in the sources):
`apdx1 gas request`, `apdx4 gas relative_to input request`,
`apdx7 relative_to input request`. -/
structure Tables (α : Type) where
  apdx1 : String → String → α
  apdx4 : String → String → α → String → α
  apdx7 : String → α → String → α

/-! ## Otto rule set (src/otto_solver.py)

Each Python per-field block has the shape

    if unknown(field):
        <ordered candidate formulas, assigning the local>
        vars[...] = field

The embedding threads the locals through `let`s in source order (so a value a
block assigns is visible to the later blocks of the same function, exactly as
in Python) and performs the dict write-backs as one record update at the end:
when a guard fails, the local still equals the stored value, so writing the
final local back is the identity on that field, making the single update
equivalent to Python's per-block conditional writes. -/

/-- `system_variables(vars, cold_air_standard)` of src/otto_solver.py
(lines 65-158). -/
def otto_system_variables {α : Type} [Inhabited α] (ops : NumOps α)
    (cas : Bool) (vars : OttoVars α) : OttoVars α :=
  -- A) r relations
  let r :=
    if unknown vars.r then
      if known vars.p1.v && known vars.p2.v then
        some (ops.div vars.p1.v.get! vars.p2.v.get!)
      else if known vars.p1.P && known vars.p2.P then
        some (ops.pow (ops.div vars.p2.P.get! vars.p1.P.get!)
          (ops.div ops.one vars.gamma.get!))
      else if known vars.p1.T && known vars.p2.T then
        some (ops.pow (ops.div vars.p2.T.get! vars.p1.T.get!)
          (ops.div ops.one (ops.sub vars.gamma.get! ops.one)))
      else vars.r
    else vars.r
  -- C) Qh and Qc relations
  let Qh :=
    if cas then
      if unknown vars.Qh then
        if known vars.cv && known vars.p3.T && known vars.p2.T then
          some (ops.mul vars.cv.get! (ops.sub vars.p3.T.get! vars.p2.T.get!))
        else vars.Qh
      else vars.Qh
    else
      if unknown vars.Qh then
        if known vars.p3.u && known vars.p2.u then
          some (ops.sub vars.p3.u.get! vars.p2.u.get!)
        else vars.Qh
      else vars.Qh
  let Qc :=
    if cas then
      if unknown vars.Qc then
        if known vars.cv && known vars.p4.T && known vars.p1.T then
          some (ops.mul vars.cv.get! (ops.sub vars.p4.T.get! vars.p1.T.get!))
        else vars.Qc
      else vars.Qc
    else
      if unknown vars.Qc then
        if known vars.p4.u && known vars.p1.u then
          some (ops.sub vars.p4.u.get! vars.p1.u.get!)
        else vars.Qc
      else vars.Qc
  -- D) Wi and Wo relations
  let Wi :=
    if cas then
      if unknown vars.Wi then
        if known vars.cv && known vars.p2.T && known vars.p1.T then
          some (ops.mul vars.cv.get! (ops.sub vars.p2.T.get! vars.p1.T.get!))
        else vars.Wi
      else vars.Wi
    else
      if unknown vars.Wi then
        if known vars.p1.h && known vars.p2.h then
          some (ops.sub vars.p2.h.get! vars.p1.h.get!)
        else vars.Wi
      else vars.Wi
  let Wo :=
    if cas then
      if unknown vars.Wo then
        if known vars.cv && known vars.p3.T && known vars.p4.T then
          some (ops.mul vars.cv.get! (ops.sub vars.p3.T.get! vars.p4.T.get!))
        else vars.Wo
      else vars.Wo
    else
      if unknown vars.Wo then
        if known vars.p3.h && known vars.p4.h then
          some (ops.sub vars.p3.h.get! vars.p4.h.get!)
        else vars.Wo
      else vars.Wo
  -- E) W and n relations (read the values committed just above, as Python
  -- reads the freshly updated dict entries)
  let W :=
    if unknown vars.W then
      if known Qh && known Qc then some (ops.sub Qh.get! Qc.get!)
      else if known Wo && known Wi then some (ops.sub Wo.get! Wi.get!)
      else vars.W
    else vars.W
  let n :=
    if unknown vars.n then
      if known W && known Qh then some (ops.div W.get! Qh.get!)
      else vars.n
    else vars.n
  { vars with r := r, Qh := Qh, Qc := Qc, Wi := Wi, Wo := Wo, W := W, n := n }

/-- `step_1(vars, cold_air_standard)` of src/otto_solver.py (lines 160-296).
The T1 block only updates the local; it is never written back to the state
(there is no `vars['1']['T'] = T1` in the source), and the `s` field has no
block at all, so only `v e P e h e u` of point 1 are committed. -/
def otto_step_1 {α : Type} [Inhabited α] (ops : NumOps α) (tb : Tables α)
    (cas : Bool) (vars : OttoVars α) : OttoVars α :=
  let r := vars.r
  let Rg := vars.R
  let gamma := vars.gamma
  let T1 := vars.p1.T
  let P1 := vars.p1.P
  let v1 := vars.p1.v
  let h1 := vars.p1.h
  let u1 := vars.p1.u
  let T2 := vars.p2.T
  let P2 := vars.p2.P
  let v2 := vars.p2.v
  let T4 := vars.p4.T
  let P4 := vars.p4.P
  let v4 := vars.p4.v
  -- A) v1 relations
  let v1 :=
    if unknown v1 then
      if known v4 then v4
      else if known v2 && known r then some (ops.mul r.get! v2.get!)
      else if known T1 && known P1 && known Rg then
        some (ops.div (ops.mul Rg.get! T1.get!) P1.get!)
      else v1
    else v1
  -- B) T1 relations (local only).  Note the cold-air sub-block is a separate
  -- `if` inside the guard and does not retest `unknown(T1)`, so it can
  -- replace a value the elif-chain just produced, before any commit.
  let T1 :=
    if unknown T1 then
      let T1a :=
        if known T2 && known r && known gamma then
          some (ops.div T2.get! (ops.pow r.get! (ops.sub gamma.get! ops.one)))
        else if unknown T1 && known T4 && known P4 && known P1 then
          some (ops.mul T4.get! (ops.div P1.get! P4.get!))
        else if unknown T1 && known u1 then some (tb.apdx7 "u" u1.get! "T")
        else if unknown T1 && known h1 then some (tb.apdx7 "h" h1.get! "T")
        else T1
      if cas then
        if known vars.Qc && known vars.cv && known T4 then
          some (ops.sub T4.get! (ops.div vars.Qc.get! vars.cv.get!))
        else if known vars.Wi && known vars.cv && known T2 then
          some (ops.sub T2.get! (ops.div vars.Wi.get! vars.cv.get!))
        else T1a
      else T1a
    else T1
  -- C) P1 relations (reads the locals T1, v1 updated above)
  let P1 :=
    if unknown P1 then
      if known P2 && known r && known gamma then
        some (ops.div P2.get! (ops.pow r.get! gamma.get!))
      else if unknown P1 && known T1 && known v1 && known Rg then
        some (ops.div (ops.mul Rg.get! T1.get!) v1.get!)
      else if unknown P1 && known T1 && known T4 && known P4 then
        some (ops.mul (ops.div T1.get! T4.get!) P4.get!)
      else P1
    else P1
  -- E) h1 relations
  let h1 :=
    if unknown h1 then
      if known T1 then some (tb.apdx7 "T" T1.get! "h") else h1
    else h1
  -- F) u1 relations
  let u1 :=
    if unknown u1 then
      if known T1 then some (tb.apdx7 "T" T1.get! "u") else u1
    else u1
  { vars with p1 := { vars.p1 with v := v1, P := P1, h := h1, u := u1 } }

/-- `step_2(vars, cold_air_standard)` of src/otto_solver.py (lines 298-454). -/
def otto_step_2 {α : Type} [Inhabited α] (ops : NumOps α) (tb : Tables α)
    (cas : Bool) (vars : OttoVars α) : OttoVars α :=
  let r := vars.r
  let Rg := vars.R
  let gamma := vars.gamma
  let T1 := vars.p1.T
  let P1 := vars.p1.P
  let v1 := vars.p1.v
  let s1 := vars.p1.s
  let T2 := vars.p2.T
  let P2 := vars.p2.P
  let v2 := vars.p2.v
  let s2 := vars.p2.s
  let h2 := vars.p2.h
  let u2 := vars.p2.u
  let T3 := vars.p3.T
  let P3 := vars.p3.P
  let v3 := vars.p3.v
  -- A) v2 relations
  let v2 :=
    if unknown v2 then
      if known v1 && known r then some (ops.div v1.get! r.get!)
      else if known v3 then v3
      else if known T2 && known P2 && known Rg then
        some (ops.div (ops.mul Rg.get! T2.get!) P2.get!)
      else v2
    else v2
  -- B) T2 relations (cold-air sub-block does not retest `unknown(T2)`)
  let T2 :=
    if unknown T2 then
      let T2a :=
        if known T1 && known r && known gamma then
          some (ops.mul T1.get! (ops.pow r.get! (ops.sub gamma.get! ops.one)))
        else if known T3 && known P2 && known P3 then
          some (ops.mul T3.get! (ops.div P2.get! P3.get!))
        else if known u2 then some (tb.apdx7 "u" u2.get! "T")
        else if known h2 then some (tb.apdx7 "h" h2.get! "T")
        else T2
      if cas then
        if known vars.Qh && known vars.cv && known T3 then
          some (ops.sub T3.get! (ops.div vars.Qh.get! vars.cv.get!))
        else if known vars.Wi && known vars.cv && known T1 then
          some (ops.add (ops.div vars.Wi.get! vars.cv.get!) T1.get!)
        else T2a
      else T2a
    else T2
  -- C) P2 relations (reads the locals T2, v2 updated above)
  let P2 :=
    if unknown P2 then
      if known P1 && known r && known gamma then
        some (ops.mul P1.get! (ops.pow r.get! gamma.get!))
      else if known T2 && known T3 && known P3 then
        some (ops.mul P3.get! (ops.div T2.get! T3.get!))
      else if known T2 && known v2 && known Rg then
        some (ops.div (ops.mul Rg.get! T2.get!) v2.get!)
      else P2
    else P2
  -- D) s2 relations (the T,P-based branch is commented out in the source)
  let s2 :=
    if unknown s2 then
      if known s1 then s1 else s2
    else s2
  -- E) h2 relations
  let h2 :=
    if unknown h2 then
      if known T2 then some (tb.apdx7 "T" T2.get! "h") else h2
    else h2
  -- F) u2 relations
  let u2 :=
    if unknown u2 then
      if known T2 then some (tb.apdx7 "T" T2.get! "u") else u2
    else u2
  { vars with p2 := { T := T2, P := P2, v := v2, s := s2, h := h2, u := u2 } }

/-- `step_3(vars, cold_air_standard)` of src/otto_solver.py (lines 456-622).
The first P3 candidate tests `known(P3)` under the enclosing `unknown(P3)`
guard and is therefore dead code; it is kept as in the source. -/
def otto_step_3 {α : Type} [Inhabited α] (ops : NumOps α) (tb : Tables α)
    (cas : Bool) (vars : OttoVars α) : OttoVars α :=
  let Rg := vars.R
  let gamma := vars.gamma
  let T2 := vars.p2.T
  let P2 := vars.p2.P
  let v2 := vars.p2.v
  let T3 := vars.p3.T
  let P3 := vars.p3.P
  let v3 := vars.p3.v
  let s3 := vars.p3.s
  let h3 := vars.p3.h
  let u3 := vars.p3.u
  let T4 := vars.p4.T
  let P4 := vars.p4.P
  let v4 := vars.p4.v
  let s4 := vars.p4.s
  -- A) v3 relations
  let v3 :=
    if unknown v3 then
      if known v2 then v2
      else if unknown v3 && known T3 && known P3 && known Rg then
        some (ops.div (ops.mul Rg.get! T3.get!) P3.get!)
      else v3
    else v3
  -- B) T3 relations (cold-air sub-block does not retest `unknown(T3)`)
  let T3 :=
    if unknown T3 then
      let T3a :=
        if known T2 && known P2 && known P3 then
          some (ops.mul T2.get! (ops.div P3.get! P2.get!))
        else if unknown T3 && known T4 && known v4 && known v3 && known gamma then
          some (ops.mul T4.get!
            (ops.pow (ops.div v4.get! v3.get!) (ops.sub gamma.get! ops.one)))
        else if unknown T3 && known u3 then some (tb.apdx7 "u" u3.get! "T")
        else if unknown T3 && known h3 then some (tb.apdx7 "h" h3.get! "T")
        else T3
      if cas then
        if known vars.Qh && known vars.cv && known T2 then
          some (ops.add (ops.div vars.Qh.get! vars.cv.get!) T2.get!)
        else if known vars.Wo && known vars.cv && known T4 then
          some (ops.add (ops.div vars.Wo.get! vars.cv.get!) T4.get!)
        else T3a
      else T3a
    else T3
  -- C) P3 relations (branch 1 is the dead `known(P3)` candidate)
  let P3 :=
    if unknown P3 then
      if known T2 && known T3 && known P3 then
        some (ops.mul P2.get! (ops.div T3.get! T2.get!))
      else if unknown P3 && known P4 && known v4 && known v3 && known gamma then
        some (ops.mul P4.get! (ops.pow (ops.div v4.get! v3.get!) gamma.get!))
      else if unknown P3 && known T3 && known v3 && known Rg then
        some (ops.div (ops.mul Rg.get! T3.get!) v3.get!)
      else P3
    else P3
  -- D) s3 relations
  let s3 :=
    if unknown s3 then
      if known s4 then s4 else s3
    else s3
  -- E) h3 relations
  let h3 :=
    if unknown h3 then
      if known T3 then some (tb.apdx7 "T" T3.get! "h") else h3
    else h3
  -- F) u3 relations
  let u3 :=
    if unknown u3 then
      if known T3 then some (tb.apdx7 "T" T3.get! "u") else u3
    else u3
  { vars with p3 := { T := T3, P := P3, v := v3, s := s3, h := h3, u := u3 } }

/-- `step_4(vars, cold_air_standard)` of src/otto_solver.py (lines 624-793).
In the v4 block the second candidate is an independent `if` retesting
`unknown(v4)` (not an `elif`), as in the source. -/
def otto_step_4 {α : Type} [Inhabited α] (ops : NumOps α) (tb : Tables α)
    (cas : Bool) (vars : OttoVars α) : OttoVars α :=
  let Rg := vars.R
  let gamma := vars.gamma
  let T1 := vars.p1.T
  let P1 := vars.p1.P
  let v1 := vars.p1.v
  let T3 := vars.p3.T
  let P3 := vars.p3.P
  let v3 := vars.p3.v
  let s3 := vars.p3.s
  let T4 := vars.p4.T
  let P4 := vars.p4.P
  let v4 := vars.p4.v
  let s4 := vars.p4.s
  let h4 := vars.p4.h
  let u4 := vars.p4.u
  -- A) v4 relations
  let v4 :=
    if unknown v4 then
      let v4a := if known v1 then v1 else v4
      if unknown v4a && known T4 && known P4 && known Rg then
        some (ops.div (ops.mul Rg.get! T4.get!) P4.get!)
      else if unknown v4a && known T3 && known T4 && known v3 && known gamma then
        some (ops.mul v3.get! (ops.pow (ops.div T3.get! T4.get!)
          (ops.div ops.one (ops.sub gamma.get! ops.one))))
      else v4a
    else v4
  -- B) T4 relations (cold-air sub-block does not retest `unknown(T4)`)
  let T4 :=
    if unknown T4 then
      let T4a :=
        if known T3 && known v3 && known v4 && known gamma then
          some (ops.mul T3.get!
            (ops.pow (ops.div v3.get! v4.get!) (ops.sub gamma.get! ops.one)))
        else if unknown T4 && known P4 && known P1 && known T1 then
          some (ops.mul (ops.div P4.get! P1.get!) T1.get!)
        else if unknown T4 && known u4 then some (tb.apdx7 "u" u4.get! "T")
        else if unknown T4 && known h4 then some (tb.apdx7 "h" h4.get! "T")
        else T4
      if cas then
        if known vars.Qc && known vars.cv && known T1 then
          some (ops.add (ops.div vars.Qc.get! vars.cv.get!) T1.get!)
        else if known vars.Wo && known vars.cv && known T3 then
          some (ops.sub T3.get! (ops.div vars.Wo.get! vars.cv.get!))
        else T4a
      else T4a
    else T4
  -- C) P4 relations (reads the locals T4, v4 updated above)
  let P4 :=
    if unknown P4 then
      if known P3 && known v3 && known v4 && known gamma then
        some (ops.mul P3.get! (ops.pow (ops.div v3.get! v4.get!) gamma.get!))
      else if unknown P4 && known T4 && known v4 && known Rg then
        some (ops.div (ops.mul Rg.get! T4.get!) v4.get!)
      else if unknown P4 && known T4 && known T1 && known P1 then
        some (ops.mul (ops.div T4.get! T1.get!) P1.get!)
      else P4
    else P4
  -- D) s4 relations
  let s4 :=
    if unknown s4 then
      if known s3 then s3 else s4
    else s4
  -- E) h4 relations
  let h4 :=
    if unknown h4 then
      if known T4 then some (tb.apdx7 "T" T4.get! "h") else h4
    else h4
  -- F) u4 relations
  let u4 :=
    if unknown u4 then
      if known T4 then some (tb.apdx7 "T" T4.get! "u") else u4
    else u4
  { vars with p4 := { T := T4, P := P4, v := v4, s := s4, h := h4, u := u4 } }

/-- One full pass of the Otto solve loop body (src/otto_solver.py lines
826-840): system-level block, then state points 1,2,3,4 in order. -/
def otto_pass {α : Type} [Inhabited α] (ops : NumOps α) (tb : Tables α)
    (cas : Bool) (vars : OttoVars α) : OttoVars α :=
  otto_step_4 ops tb cas
    (otto_step_3 ops tb cas
      (otto_step_2 ops tb cas
        (otto_step_1 ops tb cas
          (otto_system_variables ops cas vars))))

/-- The pre-loop seeding of `solve_otto_cycle` (src/otto_solver.py lines
805-815): `gamma` from apdx 4 at T1 when T1 is known else from apdx 1, `R`
from apdx 1, and — only in cold-air-standard mode and only when T1 is known —
`cv` from apdx 4.  There is no reference-condition fallback for `cv`. -/
def otto_seed {α : Type} [Inhabited α] (tb : Tables α) (cas : Bool)
    (vars : OttoVars α) : OttoVars α :=
  -- The three Python statements run in sequence, but each condition only
  -- reads fields (`gamma`, `R`, `cv`, `p1.T`) the earlier statements do not
  -- write, so the sequence equals this simultaneous record update.
  { vars with
    gamma :=
      if unknown vars.gamma && known vars.p1.T then
        some (tb.apdx4 "Air" "T" vars.p1.T.get! "gamma")
      else if unknown vars.gamma then some (tb.apdx1 "Air" "gamma")
      else vars.gamma
    R := if unknown vars.R then some (tb.apdx1 "Air" "R") else vars.R
    cv :=
      if unknown vars.cv && known vars.p1.T && cas then
        some (tb.apdx4 "Air" "T" vars.p1.T.get! "cv")
      else vars.cv }

/-- `solve_otto_cycle(variables, cold_air_standard)` (src/otto_solver.py lines
795-853).  Returns the final variable set together with the Python local
`counter` (the number of passes the loop made).  The fuel passed to
`run_loop` exceeds the initial unknown count, which `run_loop_fuel_irrelevant`
together with the pass-count bound shows is never exhausted, so this equals
the unbounded `while True:` loop. -/
def solve_otto_cycle {α : Type} [Inhabited α] (ops : NumOps α) (tb : Tables α)
    (cas : Bool) (vs : OttoVars α) : OttoVars α × Nat :=
  let vs := otto_seed tb cas vs
  let prev := otto_count_nans vs
  run_loop (otto_pass ops tb cas) otto_count_nans (prev + 1) prev vs

/-! ## Diesel rule set (src/thermo/diesel_solver.py)

Same conventions as the Otto embedding.  Differences from Otto faithfully
kept: the extra `rc` and `cp` scalars; `Qh`/`Qc` carry a
`not cold_air_standard` conjunct inside the candidate condition (so in
cold-air mode they are never computed by `system_variables`); several blocks
use independent `if (unknown(x) and ...)` candidates instead of `elif`
chains; the state-point steps have no cold-air sub-blocks. -/

/-- `system_variables(vars, cold_air_standard)` of
src/thermo/diesel_solver.py (lines 67-152). -/
def diesel_system_variables {α : Type} [Inhabited α] (ops : NumOps α)
    (cas : Bool) (vars : DieselVars α) : DieselVars α :=
  -- A) r relations
  let r :=
    if unknown vars.r then
      if known vars.p1.v && known vars.p2.v then
        some (ops.div vars.p1.v.get! vars.p2.v.get!)
      else if known vars.p1.P && known vars.p2.P then
        some (ops.pow (ops.div vars.p2.P.get! vars.p1.P.get!)
          (ops.div ops.one vars.gamma.get!))
      else if known vars.p1.T && known vars.p2.T then
        some (ops.pow (ops.div vars.p2.T.get! vars.p1.T.get!)
          (ops.div ops.one (ops.sub vars.gamma.get! ops.one)))
      else vars.r
    else vars.r
  -- B) rc relations
  let rc :=
    if unknown vars.rc then
      if known vars.p2.v && known vars.p3.v then
        some (ops.div vars.p3.v.get! vars.p2.v.get!)
      else if known vars.p2.T && known vars.p3.T then
        some (ops.div vars.p3.T.get! vars.p2.T.get!)
      else vars.rc
    else vars.rc
  -- C) Qh and Qc relations (`and not cold_air_standard` inside the condition)
  let Qh :=
    if unknown vars.Qh then
      if known vars.p3.h && (known vars.p2.h && !cas) then
        some (ops.sub vars.p3.h.get! vars.p2.h.get!)
      else vars.Qh
    else vars.Qh
  let Qc :=
    if unknown vars.Qc then
      if known vars.p4.u && (known vars.p1.u && !cas) then
        some (ops.sub vars.p4.u.get! vars.p1.u.get!)
      else vars.Qc
    else vars.Qc
  -- D) Wi and Wo relations
  let Wi :=
    if unknown vars.Wi then
      if known vars.p1.u && known vars.p2.u then
        some (ops.sub vars.p1.u.get! vars.p2.u.get!)
      else vars.Wi
    else vars.Wi
  let Wo :=
    if unknown vars.Wo then
      if known vars.p2.P && known vars.p2.v && known vars.p3.v &&
          known vars.p3.u && known vars.p4.u then
        some (ops.add
          (ops.mul vars.p2.P.get! (ops.sub vars.p3.v.get! vars.p2.v.get!))
          (ops.sub vars.p3.u.get! vars.p4.u.get!))
      else vars.Wo
    else vars.Wo
  -- E) W and n relations
  let W :=
    if unknown vars.W then
      if known Qh && known Qc then some (ops.sub Qh.get! Qc.get!)
      else if known Wo && known Wi then some (ops.sub Wo.get! Wi.get!)
      else vars.W
    else vars.W
  let n :=
    if unknown vars.n then
      if known W && known Qh then some (ops.div W.get! Qh.get!)
      else vars.n
    else vars.n
  { vars with
    r := r
    rc := rc
    Qh := Qh
    Qc := Qc
    Wi := Wi
    Wo := Wo
    W := W
    n := n }

/-- `step_1(vars, cold_air_standard)` of src/thermo/diesel_solver.py (lines
154-281).  As in the Otto solver, the T1 value is local only — there is no
`vars['1']['T'] = T1` write-back — and there is no block for `s`. -/
def diesel_step_1 {α : Type} [Inhabited α] (ops : NumOps α) (tb : Tables α)
    (vars : DieselVars α) : DieselVars α :=
  let r := vars.r
  let Rg := vars.R
  let gamma := vars.gamma
  let T1 := vars.p1.T
  let P1 := vars.p1.P
  let v1 := vars.p1.v
  let h1 := vars.p1.h
  let u1 := vars.p1.u
  let T2 := vars.p2.T
  let P2 := vars.p2.P
  let v2 := vars.p2.v
  let T4 := vars.p4.T
  let P4 := vars.p4.P
  let v4 := vars.p4.v
  -- A) v1 relations
  let v1 :=
    if unknown v1 then
      if known v4 then v4
      else if known v2 && known r then some (ops.mul r.get! v2.get!)
      else if known T1 && known P1 && known Rg then
        some (ops.div (ops.mul Rg.get! T1.get!) P1.get!)
      else v1
    else v1
  -- B) T1 relations (local only; candidates 2-4 are independent `if`s)
  let T1 :=
    if unknown T1 then
      let T1a :=
        if known T2 && known r && known gamma then
          some (ops.div T2.get! (ops.pow r.get! (ops.sub gamma.get! ops.one)))
        else T1
      let T1b :=
        if unknown T1a && known T4 && known P4 && known P1 then
          some (ops.mul T4.get! (ops.div P1.get! P4.get!))
        else T1a
      let T1c :=
        if unknown T1b && known u1 then some (tb.apdx7 "u" u1.get! "T")
        else T1b
      if unknown T1c && known h1 then some (tb.apdx7 "h" h1.get! "T")
      else T1c
    else T1
  -- C) P1 relations (candidates 2-3 are independent `if`s)
  let P1 :=
    if unknown P1 then
      let P1a :=
        if known P2 && known r && known gamma then
          some (ops.div P2.get! (ops.pow r.get! gamma.get!))
        else P1
      let P1b :=
        if unknown P1a && known T1 && known v1 && known Rg then
          some (ops.div (ops.mul Rg.get! T1.get!) v1.get!)
        else P1a
      if unknown P1b && known T1 && known T4 && known P4 then
        some (ops.mul (ops.div T1.get! T4.get!) P4.get!)
      else P1b
    else P1
  -- E) h1 relations
  let h1 :=
    if unknown h1 then
      if known T1 then some (tb.apdx7 "T" T1.get! "h") else h1
    else h1
  -- F) u1 relations
  let u1 :=
    if unknown u1 then
      if known T1 then some (tb.apdx7 "T" T1.get! "u") else u1
    else u1
  { vars with p1 := { vars.p1 with v := v1, P := P1, h := h1, u := u1 } }

/-- `step_2(vars, cold_air_standard)` of src/thermo/diesel_solver.py (lines
283-431). -/
def diesel_step_2 {α : Type} [Inhabited α] (ops : NumOps α) (tb : Tables α)
    (vars : DieselVars α) : DieselVars α :=
  let r := vars.r
  let rc := vars.rc
  let Rg := vars.R
  let gamma := vars.gamma
  let T1 := vars.p1.T
  let P1 := vars.p1.P
  let v1 := vars.p1.v
  let s1 := vars.p1.s
  let T2 := vars.p2.T
  let P2 := vars.p2.P
  let v2 := vars.p2.v
  let s2 := vars.p2.s
  let h2 := vars.p2.h
  let u2 := vars.p2.u
  let T3 := vars.p3.T
  let P3 := vars.p3.P
  let v3 := vars.p3.v
  -- A) v2 relations
  let v2 :=
    if unknown v2 then
      if known v1 && known r then some (ops.div v1.get! r.get!)
      else if known v3 && known rc then some (ops.div v3.get! rc.get!)
      else if known T2 && known P2 && known Rg then
        some (ops.div (ops.mul Rg.get! T2.get!) P2.get!)
      else v2
    else v2
  -- B) T2 relations
  let T2 :=
    if unknown T2 then
      if known T1 && known r && known gamma then
        some (ops.mul T1.get! (ops.pow r.get! (ops.sub gamma.get! ops.one)))
      else if known T3 && known rc then some (ops.div T3.get! rc.get!)
      else if known u2 then some (tb.apdx7 "u" u2.get! "T")
      else if known h2 then some (tb.apdx7 "h" h2.get! "T")
      else T2
    else T2
  -- C) P2 relations
  let P2 :=
    if unknown P2 then
      if known P1 && known r && known gamma then
        some (ops.mul P1.get! (ops.pow r.get! gamma.get!))
      else if known P3 then P3
      else if known T2 && known v2 && known Rg then
        some (ops.div (ops.mul Rg.get! T2.get!) v2.get!)
      else P2
    else P2
  -- D) s2 relations
  let s2 :=
    if unknown s2 then
      if known s1 then s1 else s2
    else s2
  -- E) h2 relations
  let h2 :=
    if unknown h2 then
      if known T2 then some (tb.apdx7 "T" T2.get! "h") else h2
    else h2
  -- F) u2 relations
  let u2 :=
    if unknown u2 then
      if known T2 then some (tb.apdx7 "T" T2.get! "u") else u2
    else u2
  { vars with p2 := { T := T2, P := P2, v := v2, s := s2, h := h2, u := u2 } }

/-- `step_3(vars, cold_air_standard)` of src/thermo/diesel_solver.py (lines
433-592).  The later candidates of the v3, T3 and P3 blocks are independent
`if (unknown(..) and ...)` tests, as in the source. -/
def diesel_step_3 {α : Type} [Inhabited α] (ops : NumOps α) (tb : Tables α)
    (vars : DieselVars α) : DieselVars α :=
  let rc := vars.rc
  let Rg := vars.R
  let gamma := vars.gamma
  let T2 := vars.p2.T
  let P2 := vars.p2.P
  let v2 := vars.p2.v
  let T3 := vars.p3.T
  let P3 := vars.p3.P
  let v3 := vars.p3.v
  let s3 := vars.p3.s
  let h3 := vars.p3.h
  let u3 := vars.p3.u
  let T4 := vars.p4.T
  let P4 := vars.p4.P
  let v4 := vars.p4.v
  let s4 := vars.p4.s
  -- A) v3 relations
  let v3 :=
    if unknown v3 then
      let v3a :=
        if known v2 && known rc then some (ops.mul rc.get! v2.get!)
        else v3
      if unknown v3a && known T3 && known P3 && known Rg then
        some (ops.div (ops.mul Rg.get! T3.get!) P3.get!)
      else v3a
    else v3
  -- B) T3 relations
  let T3 :=
    if unknown T3 then
      let T3a :=
        if known T2 && known rc then some (ops.mul T2.get! rc.get!)
        else T3
      let T3b :=
        if unknown T3a && known T4 && known v4 && known v3 && known gamma then
          some (ops.mul T4.get!
            (ops.pow (ops.div v4.get! v3.get!) (ops.sub gamma.get! ops.one)))
        else T3a
      let T3c :=
        if unknown T3b && known u3 then some (tb.apdx7 "u" u3.get! "T")
        else T3b
      if unknown T3c && known h3 then some (tb.apdx7 "h" h3.get! "T")
      else T3c
    else T3
  -- C) P3 relations
  let P3 :=
    if unknown P3 then
      let P3a := if known P2 then P2 else P3
      let P3b :=
        if unknown P3a && known P4 && known v4 && known v3 && known gamma then
          some (ops.mul P4.get! (ops.pow (ops.div v4.get! v3.get!) gamma.get!))
        else P3a
      if unknown P3b && known T3 && known v3 && known Rg then
        some (ops.div (ops.mul Rg.get! T3.get!) v3.get!)
      else P3b
    else P3
  -- D) s3 relations
  let s3 :=
    if unknown s3 then
      if known s4 then s4 else s3
    else s3
  -- E) h3 relations
  let h3 :=
    if unknown h3 then
      if known T3 then some (tb.apdx7 "T" T3.get! "h") else h3
    else h3
  -- F) u3 relations
  let u3 :=
    if unknown u3 then
      if known T3 then some (tb.apdx7 "T" T3.get! "u") else u3
    else u3
  { vars with p3 := { T := T3, P := P3, v := v3, s := s3, h := h3, u := u3 } }

/-- `step_4(vars, cold_air_standard)` of src/thermo/diesel_solver.py (lines
594-754). -/
def diesel_step_4 {α : Type} [Inhabited α] (ops : NumOps α) (tb : Tables α)
    (vars : DieselVars α) : DieselVars α :=
  let Rg := vars.R
  let gamma := vars.gamma
  let T1 := vars.p1.T
  let P1 := vars.p1.P
  let v1 := vars.p1.v
  let T3 := vars.p3.T
  let P3 := vars.p3.P
  let v3 := vars.p3.v
  let s3 := vars.p3.s
  let T4 := vars.p4.T
  let P4 := vars.p4.P
  let v4 := vars.p4.v
  let s4 := vars.p4.s
  let h4 := vars.p4.h
  let u4 := vars.p4.u
  -- A) v4 relations
  let v4 :=
    if unknown v4 then
      let v4a := if known v1 then v1 else v4
      let v4b :=
        if unknown v4a && known T4 && known P4 && known Rg then
          some (ops.div (ops.mul Rg.get! T4.get!) P4.get!)
        else v4a
      if unknown v4b && known T3 && known T4 && known v3 && known gamma then
        some (ops.mul v3.get! (ops.pow (ops.div T3.get! T4.get!)
          (ops.div ops.one (ops.sub gamma.get! ops.one))))
      else v4b
    else v4
  -- B) T4 relations
  let T4 :=
    if unknown T4 then
      let T4a :=
        if known T3 && known v3 && known v4 && known gamma then
          some (ops.mul T3.get!
            (ops.pow (ops.div v3.get! v4.get!) (ops.sub gamma.get! ops.one)))
        else T4
      let T4b :=
        if unknown T4a && known P4 && known P1 && known T1 then
          some (ops.mul (ops.div P4.get! P1.get!) T1.get!)
        else T4a
      let T4c :=
        if unknown T4b && known u4 then some (tb.apdx7 "u" u4.get! "T")
        else T4b
      if unknown T4c && known h4 then some (tb.apdx7 "h" h4.get! "T")
      else T4c
    else T4
  -- C) P4 relations
  let P4 :=
    if unknown P4 then
      let P4a :=
        if known P3 && known v3 && known v4 && known gamma then
          some (ops.mul P3.get! (ops.pow (ops.div v3.get! v4.get!) gamma.get!))
        else P4
      let P4b :=
        if unknown P4a && known T4 && known v4 && known Rg then
          some (ops.div (ops.mul Rg.get! T4.get!) v4.get!)
        else P4a
      if unknown P4b && known T4 && known T1 && known P1 then
        some (ops.mul (ops.div T4.get! T1.get!) P1.get!)
      else P4b
    else P4
  -- D) s4 relations
  let s4 :=
    if unknown s4 then
      if known s3 then s3 else s4
    else s4
  -- E) h4 relations
  let h4 :=
    if unknown h4 then
      if known T4 then some (tb.apdx7 "T" T4.get! "h") else h4
    else h4
  -- F) u4 relations
  let u4 :=
    if unknown u4 then
      if known T4 then some (tb.apdx7 "T" T4.get! "u") else u4
    else u4
  { vars with p4 := { T := T4, P := P4, v := v4, s := s4, h := h4, u := u4 } }

/-- One full pass of the Diesel solve loop body (src/thermo/diesel_solver.py
lines 792-806). -/
def diesel_pass {α : Type} [Inhabited α] (ops : NumOps α) (tb : Tables α)
    (cas : Bool) (vars : DieselVars α) : DieselVars α :=
  diesel_step_4 ops tb
    (diesel_step_3 ops tb
      (diesel_step_2 ops tb
        (diesel_step_1 ops tb
          (diesel_system_variables ops cas vars))))

/-- The pre-loop seeding of `solve_diesel_cycle` (src/thermo/diesel_solver.py
lines 767-780): like the Otto seeding plus the analogous `cp` seeding; as for
`cv`, there is no reference-condition fallback when T1 is unknown. -/
def diesel_seed {α : Type} [Inhabited α] (tb : Tables α) (cas : Bool)
    (vars : DieselVars α) : DieselVars α :=
  -- As for `otto_seed`: the four sequential Python statements write fields
  -- their conditions never read from each other, so they equal one
  -- simultaneous record update.
  { vars with
    gamma :=
      if unknown vars.gamma && known vars.p1.T then
        some (tb.apdx4 "Air" "T" vars.p1.T.get! "gamma")
      else if unknown vars.gamma then some (tb.apdx1 "Air" "gamma")
      else vars.gamma
    R := if unknown vars.R then some (tb.apdx1 "Air" "R") else vars.R
    cv :=
      if unknown vars.cv && known vars.p1.T && cas then
        some (tb.apdx4 "Air" "T" vars.p1.T.get! "cv")
      else vars.cv
    cp :=
      if unknown vars.cp && known vars.p1.T && cas then
        some (tb.apdx4 "Air" "T" vars.p1.T.get! "cp")
      else vars.cp }

/-- `solve_diesel_cycle(variables, cold_air_standard)`
(src/thermo/diesel_solver.py lines 756-819), with the Python local `counter`
returned alongside the final state, as for the Otto solver. -/
def solve_diesel_cycle {α : Type} [Inhabited α] (ops : NumOps α)
    (tb : Tables α) (cas : Bool) (vs : DieselVars α) : DieselVars α × Nat :=
  let vs := diesel_seed tb cas vs
  let prev := diesel_count_nans vs
  run_loop (diesel_pass ops tb cas) diesel_count_nans (prev + 1) prev vs

/-! ## 1-D table lookups (src/thermo/apdx_functions.py)

`get_apdx_7` / `get_apdx_8ab` / `get_apdx_9ab` all reduce, for a scalar
input, to `np.interp(input, data[axis], data[target])` on the CSV columns
as stored — the code never sorts them.  `np_interp` mirrors numpy's
`arr_interp` (numpy/core/src/multiarray/compiled_base.c): an empty sample
array or a length mismatch raises (`none` here); otherwise the key is first
compared against the first and last sample (`binary_search_with_guess`
returns `-1`/`len` there, yielding the left/right boundary ordinate, by
default `fp[0]`/`fp[len-1]`); otherwise the insertion index `j` is the last
position whose sample is `≤` the key, found by `linear_search` — the loop
`for (i = i0; i < len && key >= arr[i]; i++); return i - 1;` — which numpy
uses verbatim for arrays of at most 4 samples and which its binary search
matches on sorted arrays; then `dy[j]` is returned for `j` at the end or on
an exact sample hit, else the slope formula
`(dy[j+1]-dy[j])/(dx[j+1]-dx[j]) * (x - dx[j]) + dy[j]`. -/

def np_interp (dx dy : List ℚ) (x : ℚ) : Option ℚ :=
  if dx.length = 0 ∨ dx.length ≠ dy.length then none
  else if x > dx.getLastD 0 then some (dy.getLastD 0)
  else if x < dx.headD 0 then some (dy.headD 0)
  else
    let j := (dx.takeWhile (fun a => a ≤ x)).length - 1
    if j = dx.length - 1 then some (dy.getD j 0)
    else if dx.getD j 0 = x then some (dy.getD j 0)
    else
      some ((dy.getD (j + 1) 0 - dy.getD j 0) /
        (dx.getD (j + 1) 0 - dx.getD j 0) * (x - dx.getD j 0) + dy.getD j 0)

/-- Insert one `(axis, target)` row into an axis-sorted row list. -/
def insertRow (p : ℚ × ℚ) : List (ℚ × ℚ) → List (ℚ × ℚ)
  | [] => [p]
  | q :: t => if p.1 ≤ q.1 then p :: q :: t else q :: insertRow p t

/-- Sort rows by the axis column (insertion sort). -/
def sortByAxis : List (ℚ × ℚ) → List (ℚ × ℚ) :=
  List.foldr insertRow []

/-- The clamped piecewise-linear interpolant of an axis-sorted row list:
constant at the boundary target values outside the tabulated axis range,
linear blend on each axis interval. -/
def piecewiseInterp : List (ℚ × ℚ) → ℚ → ℚ
  | [], _ => 0
  | [(_, y0)], _ => y0
  | (x0, y0) :: (x1, y1) :: t, x =>
    if x ≤ x0 then y0
    else if x ≤ x1 then (y1 - y0) / (x1 - x0) * (x - x0) + y0
    else piecewiseInterp ((x1, y1) :: t) x

/-- Modelled from the spec: `lookup1D` as §4.1 words it — "sorts rows by
`axis`, performs piecewise-linear interpolation of `target` over `axis` … 
values below the minimum or above the maximum tabulated axis value are
clamped to the boundary target value".  Compared against `np_interp`, the
embedding of what the code actually runs. -/
def spec_lookup1D (rows : List (ℚ × ℚ)) (x : ℚ) : ℚ :=
  piecewiseInterp (sortByAxis rows) x

/-! ## Quality routines (src/thermo/apdx_functions.py lines 340-492)

The saturation-table lookups `get_apdx_8ab`/`get_apdx_9ab` read CSV files
that are not part of the sources, so they enter as oracles with the Python
argument order `(table_base, relative_to, input, request)`.  Failure modes
are surfaced as `Except String`: Python's `raise ValueError(...)`, a failing
`assert`, and the `NameError` from reading `T_min` when `apdx` is neither 8
nor 9. -/

/-- `x_from_PT_and_var(apdx, pt_type, pt_value, known_var, known_var_value)`
(lines 340-376).  Computes `x = (known_var_value - var_f) / (var_g - var_f)`
with no guard on `var_g == var_f`: the quotient is formed regardless (float
semantics would yield ±inf or NaN under a `RuntimeWarning`, never an
exception; the rational model returns the zero-division convention).  The
only raises are the `pt_type` and `apdx` `ValueError`s. -/
def x_from_PT_and_var (lk8 lk9 : String → String → ℚ → String → ℚ)
    (apdx : Nat) (pt_type : String) (pt_value : ℚ) (known_var : String)
    (known_var_value : ℚ) : Except String ℚ :=
  match (if pt_type = "P" then some "Pressure"
         else if pt_type = "T" then some "Temperature" else none) with
  | none => Except.error "ValueError: pt_type must be either P or T"
  | some table_base =>
    match (if apdx = 8 then some lk8
           else if apdx = 9 then some lk9 else none) with
    | none => Except.error "ValueError: apdx must be either 8 (water) or 9 (R134a)"
    | some lk =>
      let var_f := lk table_base pt_type pt_value (known_var ++ "f")
      let var_g := lk table_base pt_type pt_value (known_var ++ "g")
      Except.ok ((known_var_value - var_f) / (var_g - var_f))

/-- The state record `vars_from_x_and_quality_var` returns (dict with keys
`T P v h s u`, filled in that order). -/
structure SatState where
  T : ℚ
  P : ℚ
  v : ℚ
  h : ℚ
  s : ℚ
  u : ℚ
deriving Repr, DecidableEq

/-- The root-finding objective of `vars_from_x_and_quality_var`:
`objective(T) = (1-x)*var_f(T) + x*var_g(T) - known_var_value` over the
temperature-based saturation table. -/
def quality_objective (lk : String → String → ℚ → String → ℚ) (x : ℚ)
    (known_var : String) (known_var_value : ℚ) (T : ℚ) : ℚ :=
  (1 - x) * lk "Temperature" "T" T (known_var ++ "f") +
    x * lk "Temperature" "T" T (known_var ++ "g") - known_var_value

/-- The fluid-specific root-finding bracket `[T_min, T_max]` of
`vars_from_x_and_quality_var` (lines 451-455): the tabulated saturation
range, `0.01 .. 374.14` °C for water (apdx 8), `-24 .. 100` °C for R134a
(apdx 9); reading it for any other `apdx` is a Python `NameError`. -/
def sat_bracket (apdx : Nat) : Option (ℚ × ℚ) :=
  if apdx = 8 then some (1 / 100, 18707 / 50)
  else if apdx = 9 then some (-24, 100)
  else none

/-- The property fill-in at a resolved saturation temperature (lines
468-486): `P` from the table, then each of `v h s u` by the lever rule,
except the known variable, which receives the caller's value verbatim. -/
def fill_sat_state (lk : String → String → ℚ → String → ℚ) (x : ℚ)
    (known_var : String) (known_var_value : ℚ) (T_sat : ℚ) : SatState :=
  let val := fun (v : String) =>
    if v = known_var then known_var_value
    else (1 - x) * lk "Temperature" "T" T_sat (v ++ "f") +
      x * lk "Temperature" "T" T_sat (v ++ "g")
  { T := T_sat
    P := lk "Temperature" "T" T_sat "P"
    v := val "v"
    h := val "h"
    s := val "s"
    u := val "u" }

/-- `vars_from_x_and_quality_var(apdx, quality, known_var, known_var_value)`
(lines 417-492).  `brent` is the `scipy.optimize.root_scalar(..,
method='brentq')` oracle; the embedded function only calls it after the
explicit sign check `objective(T_min) * objective(T_max) >= 0`, which raises
`ValueError` — the spec's BracketingFailure — before any root-finding. -/
def vars_from_x_and_quality_var (lk8 lk9 : String → String → ℚ → String → ℚ)
    (brent : (ℚ → ℚ) → ℚ → ℚ → ℚ) (apdx : Nat) (quality : ℚ)
    (known_var : String) (known_var_value : ℚ) : Except String SatState :=
  if ¬ (known_var = "v" ∨ known_var = "h" ∨ known_var = "s" ∨
      known_var = "u") then
    Except.error "AssertionError: Known variable must be a quality-dependent property."
  else
    let lk := if apdx = 8 then lk8 else lk9
    if quality = 0 ∨ quality = 1 then
      let T_sat := lk "Temperature"
        (known_var ++ (if quality = 0 then "f" else "g")) known_var_value "T"
      Except.ok (fill_sat_state lk quality known_var known_var_value T_sat)
    else
      match sat_bracket apdx with
      | none => Except.error "NameError: name T_min is not defined"
      | some (T_min, T_max) =>
        let obj := quality_objective lk quality known_var known_var_value
        if obj T_min * obj T_max ≥ 0 then
          Except.error "ValueError: f(a) and f(b) must have different signs for root_scalar to work."
        else
          Except.ok (fill_sat_state lk quality known_var known_var_value
            (brent obj T_min T_max))

/-- "Opposite signs" as the spec words the bracketing precondition on
`f(T_min)` and `f(T_max)`. -/
def OppositeSigns (a b : ℚ) : Prop := (a < 0 ∧ 0 < b) ∨ (0 < a ∧ b < 0)

/-! ## Superheated 2-D lookup (src/thermo/apdx_functions.py lines 158-214
and 265-321)

`get_apdx_8c` and `get_apdx_9c` are textually identical up to the CSV file;
one embedding covers both, over an abstract row list (the cleaned numeric
`(axis0, axis1, target)` triples) and a `scipy.interpolate.griddata` oracle.
`griddata(points, values, xi, method='linear')` returns its `fill_value` —
NaN by default — for a query outside the convex hull of `points`, without
raising; the oracle returns `none` for that NaN.  The result type keeps
numbers, the NaN sentinel and raised errors distinct. -/

inductive Interp2DResult where
  | num (q : ℚ)
  | nan
  | err (msg : String)
deriving Repr, DecidableEq

/-- `get_apdx_8c(relative_to, input, request)` (= `get_apdx_9c`).  If the
first query coordinate equals some tabulated `axis0` value, 1-D interpolation
over the matching rows' `(axis1, target)` columns; symmetrically for the
second coordinate; otherwise the `griddata` scattered interpolation, whose
NaN fill value for an out-of-hull query is returned as `.nan` — there is no
raise on that path. -/
def get_apdx_8c (rows : List (ℚ × ℚ × ℚ)) (gridd : ℚ × ℚ → Option ℚ)
    (input : ℚ × ℚ) : Interp2DResult :=
  if (rows.map (fun row => row.1)).contains input.1 then
    let filtered := rows.filter (fun row => row.1 = input.1)
    match np_interp (filtered.map (fun row => row.2.1))
        (filtered.map (fun row => row.2.2)) input.2 with
    | some q => .num q
    | none => .err "ValueError: array of sample points is empty"
  else if (rows.map (fun row => row.2.1)).contains input.2 then
    let filtered := rows.filter (fun row => row.2.1 = input.2)
    match np_interp (filtered.map (fun row => row.1))
        (filtered.map (fun row => row.2.2)) input.1 with
    | some q => .num q
    | none => .err "ValueError: array of sample points is empty"
  else
    match gridd input with
    | some q => .num q
    | none => .nan

/-! ## Concrete instances used by witnesses and counterexamples

The structural theorems below hold for every carrier and every
`NumOps`/`Tables` instantiation.  Witnesses instantiate them at `ℤ` with
synthetic constant tables (`intOps.pow` is a stand-in total binary operation;
no evaluated statement depends on which one).  The `FreeExpr` carrier is the
free term algebra over the `NumOps`/`Tables` signature: running the solver on
it computes the exact syntactic expression each field is committed with, so a
`decide` against it checks the committed formula itself, simultaneously for
every instantiation of the arithmetic. -/

def intOps : NumOps ℤ :=
  { add := fun a b => a + b
    sub := fun a b => a - b
    mul := fun a b => a * b
    div := fun a b => a / b
    pow := fun a b => a * b
    one := 1 }

def tbInt : Tables ℤ :=
  { apdx1 := fun _ _ => 2
    apdx4 := fun _ _ _ _ => 3
    apdx7 := fun _ _ _ => 5 }

def spFull : StatePoint ℤ :=
  { T := some 11, P := some 12, v := some 13, s := some 14, h := some 15,
    u := some 16 }

def spNone {α : Type} : StatePoint α :=
  { T := none, P := none, v := none, s := none, h := none, u := none }

/-- A fully known Otto state: `count_nans` is zero. -/
def ottoFull : OttoVars ℤ :=
  { r := some 8, R := some 2, cv := some 3, gamma := some 4, Qh := some 5,
    Qc := some 6, Wi := some 7, Wo := some 9, W := some 10, n := some 21,
    p1 := spFull, p2 := spFull, p3 := spFull, p4 := spFull }

/-- A fully known Diesel state. -/
def dieselFull : DieselVars ℤ :=
  { r := some 8, rc := some 2, R := some 2, cv := some 3, cp := some 17,
    gamma := some 4, Qh := some 5, Qc := some 6, Wi := some 7, Wo := some 9,
    W := some 10, n := some 21,
    p1 := spFull, p2 := spFull, p3 := spFull, p4 := spFull }

/-- The all-unknown Otto state of `define_empty_variables`. -/
def ottoEmpty : OttoVars ℤ :=
  { r := none, R := none, cv := none, gamma := none, Qh := none, Qc := none,
    Wi := none, Wo := none, W := none, n := none,
    p1 := spNone, p2 := spNone, p3 := spNone, p4 := spNone }

/-- The all-unknown Diesel state. -/
def dieselEmpty : DieselVars ℤ :=
  { r := none, rc := none, R := none, cv := none, cp := none, gamma := none,
    Qh := none, Qc := none, Wi := none, Wo := none, W := none, n := none,
    p1 := spNone, p2 := spNone, p3 := spNone, p4 := spNone }

/-- The input set of spec §8's Otto consistency property over an arbitrary
carrier: `gamma`, `R`, `r`, `T1`, `P1` known, everything else unknown. -/
def ottoSpecInputG {α : Type} (t1 p1v r0 g0 R0 : α) : OttoVars α :=
  { r := some r0, R := some R0, cv := none, gamma := some g0, Qh := none,
    Qc := none, Wi := none, Wo := none, W := none, n := none,
    p1 := { T := some t1, P := some p1v, v := none, s := none, h := none,
            u := none },
    p2 := spNone, p3 := spNone, p4 := spNone }

/-- Free terms over the solver's arithmetic-and-lookup signature. -/
inductive FreeExpr where
  | fvar (nm : String)
  | lit1
  | add (a b : FreeExpr)
  | sub (a b : FreeExpr)
  | mul (a b : FreeExpr)
  | div (a b : FreeExpr)
  | pow (a b : FreeExpr)
  | a1 (gas request : String)
  | a4 (gas rel : String) (x : FreeExpr) (request : String)
  | a7 (rel : String) (x : FreeExpr) (request : String)
deriving Repr, DecidableEq, Inhabited

def freeOps : NumOps FreeExpr :=
  { add := .add, sub := .sub, mul := .mul, div := .div, pow := .pow,
    one := .lit1 }

def freeTb : Tables FreeExpr :=
  { apdx1 := .a1, apdx4 := .a4, apdx7 := .a7 }

/-- Spec §8's Otto input instantiated with free variables, so that the solve
computes, per field, the exact expression the Python code would commit. -/
def ottoSpecInputFree : OttoVars FreeExpr :=
  ottoSpecInputG (.fvar "T1") (.fvar "P1") (.fvar "r") (.fvar "gamma")
    (.fvar "R")

/-! ## Write-once machinery

`optExt a b` says every known value of `a` persists, unchanged, in `b`; the
state-level versions conjoin it over every cycle-level and state-point
field.  Because every Python write-back is guarded by `unknown(field)`, each
rule block, each pass and the whole solve extend the state in this sense. -/

theorem get_bang_some {α : Type} [Inhabited α] (x : α) : (some x).get! = x :=
  rfl

def optExt {α : Type} (a b : Option α) : Prop := ∀ x, a = some x → b = some x

def spExt {α : Type} (p q : StatePoint α) : Prop :=
  optExt p.T q.T ∧ optExt p.P q.P ∧ optExt p.v q.v ∧ optExt p.s q.s ∧
    optExt p.h q.h ∧ optExt p.u q.u

def OttoExt {α : Type} (a b : OttoVars α) : Prop :=
  optExt a.r b.r ∧ optExt a.R b.R ∧ optExt a.cv b.cv ∧
    optExt a.gamma b.gamma ∧ optExt a.Qh b.Qh ∧ optExt a.Qc b.Qc ∧
    optExt a.Wi b.Wi ∧ optExt a.Wo b.Wo ∧ optExt a.W b.W ∧ optExt a.n b.n ∧
    spExt a.p1 b.p1 ∧ spExt a.p2 b.p2 ∧ spExt a.p3 b.p3 ∧ spExt a.p4 b.p4

def DieselExt {α : Type} (a b : DieselVars α) : Prop :=
  optExt a.r b.r ∧ optExt a.rc b.rc ∧ optExt a.R b.R ∧ optExt a.cv b.cv ∧
    optExt a.cp b.cp ∧ optExt a.gamma b.gamma ∧ optExt a.Qh b.Qh ∧
    optExt a.Qc b.Qc ∧ optExt a.Wi b.Wi ∧ optExt a.Wo b.Wo ∧
    optExt a.W b.W ∧ optExt a.n b.n ∧
    spExt a.p1 b.p1 ∧ spExt a.p2 b.p2 ∧ spExt a.p3 b.p3 ∧ spExt a.p4 b.p4

theorem optExt_refl {α : Type} (a : Option α) : optExt a a := fun _ hx => hx

theorem optExt_trans {α : Type} {a b c : Option α} (h1 : optExt a b)
    (h2 : optExt b c) : optExt a c := fun x hx => h2 x (h1 x hx)

theorem spExt_refl {α : Type} (p : StatePoint α) : spExt p p :=
  ⟨optExt_refl _, optExt_refl _, optExt_refl _, optExt_refl _, optExt_refl _,
    optExt_refl _⟩

theorem spExt_trans {α : Type} {p q r : StatePoint α} (h1 : spExt p q)
    (h2 : spExt q r) : spExt p r :=
  ⟨optExt_trans h1.1 h2.1, optExt_trans h1.2.1 h2.2.1,
    optExt_trans h1.2.2.1 h2.2.2.1, optExt_trans h1.2.2.2.1 h2.2.2.2.1,
    optExt_trans h1.2.2.2.2.1 h2.2.2.2.2.1,
    optExt_trans h1.2.2.2.2.2 h2.2.2.2.2.2⟩

theorem ottoExt_refl {α : Type} (a : OttoVars α) : OttoExt a a :=
  ⟨optExt_refl _, optExt_refl _, optExt_refl _, optExt_refl _, optExt_refl _,
    optExt_refl _, optExt_refl _, optExt_refl _, optExt_refl _, optExt_refl _,
    spExt_refl _, spExt_refl _, spExt_refl _, spExt_refl _⟩

theorem ottoExt_trans {α : Type} {a b c : OttoVars α} (h1 : OttoExt a b)
    (h2 : OttoExt b c) : OttoExt a c := by
  obtain ⟨a1, a2, a3, a4, a5, a6, a7, a8, a9, a10, a11, a12, a13, a14⟩ := h1
  obtain ⟨b1, b2, b3, b4, b5, b6, b7, b8, b9, b10, b11, b12, b13, b14⟩ := h2
  exact ⟨optExt_trans a1 b1, optExt_trans a2 b2, optExt_trans a3 b3,
    optExt_trans a4 b4, optExt_trans a5 b5, optExt_trans a6 b6,
    optExt_trans a7 b7, optExt_trans a8 b8, optExt_trans a9 b9,
    optExt_trans a10 b10, spExt_trans a11 b11, spExt_trans a12 b12,
    spExt_trans a13 b13, spExt_trans a14 b14⟩

theorem dieselExt_refl {α : Type} (a : DieselVars α) : DieselExt a a :=
  ⟨optExt_refl _, optExt_refl _, optExt_refl _, optExt_refl _, optExt_refl _,
    optExt_refl _, optExt_refl _, optExt_refl _, optExt_refl _, optExt_refl _,
    optExt_refl _, optExt_refl _,
    spExt_refl _, spExt_refl _, spExt_refl _, spExt_refl _⟩

theorem dieselExt_trans {α : Type} {a b c : DieselVars α} (h1 : DieselExt a b)
    (h2 : DieselExt b c) : DieselExt a c := by
  obtain ⟨a1, a2, a3, a4, a5, a6, a7, a8, a9, a10, a11, a12, a13, a14, a15,
    a16⟩ := h1
  obtain ⟨b1, b2, b3, b4, b5, b6, b7, b8, b9, b10, b11, b12, b13, b14, b15,
    b16⟩ := h2
  exact ⟨optExt_trans a1 b1, optExt_trans a2 b2, optExt_trans a3 b3,
    optExt_trans a4 b4, optExt_trans a5 b5, optExt_trans a6 b6,
    optExt_trans a7 b7, optExt_trans a8 b8, optExt_trans a9 b9,
    optExt_trans a10 b10, optExt_trans a11 b11, optExt_trans a12 b12,
    spExt_trans a13 b13, spExt_trans a14 b14, spExt_trans a15 b15,
    spExt_trans a16 b16⟩

theorem otto_system_variables_ext {α : Type} [Inhabited α] (ops : NumOps α)
    (cas : Bool) (v : OttoVars α) :
    OttoExt v (otto_system_variables ops cas v) := by
  obtain ⟨r, R, cv, gm, Qh, Qc, Wi, Wo, W, n, p1, p2, p3, p4⟩ := v
  cases cas <;>
    refine ⟨?_, ?_, ?_, ?_, ?_, ?_, ?_, ?_, ?_, ?_,
      ⟨?_, ?_, ?_, ?_, ?_, ?_⟩, ⟨?_, ?_, ?_, ?_, ?_, ?_⟩,
      ⟨?_, ?_, ?_, ?_, ?_, ?_⟩, ⟨?_, ?_, ?_, ?_, ?_, ?_⟩⟩ <;>
    intro x hx <;> first
      | exact hx
      | (subst hx; rfl)

theorem otto_step_1_ext {α : Type} [Inhabited α] (ops : NumOps α)
    (tb : Tables α) (cas : Bool) (v : OttoVars α) :
    OttoExt v (otto_step_1 ops tb cas v) := by
  obtain ⟨r, R, cv, gm, Qh, Qc, Wi, Wo, W, n, p1, p2, p3, p4⟩ := v
  obtain ⟨T1, P1, v1, s1, h1, u1⟩ := p1
  refine ⟨?_, ?_, ?_, ?_, ?_, ?_, ?_, ?_, ?_, ?_,
    ⟨?_, ?_, ?_, ?_, ?_, ?_⟩, ⟨?_, ?_, ?_, ?_, ?_, ?_⟩,
    ⟨?_, ?_, ?_, ?_, ?_, ?_⟩, ⟨?_, ?_, ?_, ?_, ?_, ?_⟩⟩ <;>
    intro x hx <;> first
      | exact hx
      | (subst hx; rfl)

theorem otto_step_2_ext {α : Type} [Inhabited α] (ops : NumOps α)
    (tb : Tables α) (cas : Bool) (v : OttoVars α) :
    OttoExt v (otto_step_2 ops tb cas v) := by
  obtain ⟨r, R, cv, gm, Qh, Qc, Wi, Wo, W, n, p1, p2, p3, p4⟩ := v
  obtain ⟨T2, P2, v2, s2, h2, u2⟩ := p2
  refine ⟨?_, ?_, ?_, ?_, ?_, ?_, ?_, ?_, ?_, ?_,
    ⟨?_, ?_, ?_, ?_, ?_, ?_⟩, ⟨?_, ?_, ?_, ?_, ?_, ?_⟩,
    ⟨?_, ?_, ?_, ?_, ?_, ?_⟩, ⟨?_, ?_, ?_, ?_, ?_, ?_⟩⟩ <;>
    intro x hx <;> first
      | exact hx
      | (subst hx; rfl)

theorem otto_step_3_ext {α : Type} [Inhabited α] (ops : NumOps α)
    (tb : Tables α) (cas : Bool) (v : OttoVars α) :
    OttoExt v (otto_step_3 ops tb cas v) := by
  obtain ⟨r, R, cv, gm, Qh, Qc, Wi, Wo, W, n, p1, p2, p3, p4⟩ := v
  obtain ⟨T3, P3, v3, s3, h3, u3⟩ := p3
  refine ⟨?_, ?_, ?_, ?_, ?_, ?_, ?_, ?_, ?_, ?_,
    ⟨?_, ?_, ?_, ?_, ?_, ?_⟩, ⟨?_, ?_, ?_, ?_, ?_, ?_⟩,
    ⟨?_, ?_, ?_, ?_, ?_, ?_⟩, ⟨?_, ?_, ?_, ?_, ?_, ?_⟩⟩ <;>
    intro x hx <;> first
      | exact hx
      | (subst hx; rfl)

theorem otto_step_4_ext {α : Type} [Inhabited α] (ops : NumOps α)
    (tb : Tables α) (cas : Bool) (v : OttoVars α) :
    OttoExt v (otto_step_4 ops tb cas v) := by
  obtain ⟨r, R, cv, gm, Qh, Qc, Wi, Wo, W, n, p1, p2, p3, p4⟩ := v
  obtain ⟨T4, P4, v4, s4, h4, u4⟩ := p4
  refine ⟨?_, ?_, ?_, ?_, ?_, ?_, ?_, ?_, ?_, ?_,
    ⟨?_, ?_, ?_, ?_, ?_, ?_⟩, ⟨?_, ?_, ?_, ?_, ?_, ?_⟩,
    ⟨?_, ?_, ?_, ?_, ?_, ?_⟩, ⟨?_, ?_, ?_, ?_, ?_, ?_⟩⟩ <;>
    intro x hx <;> first
      | exact hx
      | (subst hx; rfl)

theorem otto_seed_ext {α : Type} [Inhabited α] (tb : Tables α) (cas : Bool)
    (v : OttoVars α) : OttoExt v (otto_seed tb cas v) := by
  obtain ⟨r, R, cv, gm, Qh, Qc, Wi, Wo, W, n, p1, p2, p3, p4⟩ := v
  refine ⟨?_, ?_, ?_, ?_, ?_, ?_, ?_, ?_, ?_, ?_,
    ⟨?_, ?_, ?_, ?_, ?_, ?_⟩, ⟨?_, ?_, ?_, ?_, ?_, ?_⟩,
    ⟨?_, ?_, ?_, ?_, ?_, ?_⟩, ⟨?_, ?_, ?_, ?_, ?_, ?_⟩⟩ <;>
    intro x hx <;> first
      | exact hx
      | (subst hx; rfl)

theorem otto_pass_ext {α : Type} [Inhabited α] (ops : NumOps α)
    (tb : Tables α) (cas : Bool) (v : OttoVars α) :
    OttoExt v (otto_pass ops tb cas v) :=
  ottoExt_trans (otto_system_variables_ext ops cas v)
    (ottoExt_trans (otto_step_1_ext ops tb cas _)
      (ottoExt_trans (otto_step_2_ext ops tb cas _)
        (ottoExt_trans (otto_step_3_ext ops tb cas _)
          (otto_step_4_ext ops tb cas _))))

theorem solve_otto_cycle_ext {α : Type} [Inhabited α] (ops : NumOps α)
    (tb : Tables α) (cas : Bool) (v : OttoVars α) :
    OttoExt v (solve_otto_cycle ops tb cas v).1 :=
  ottoExt_trans (otto_seed_ext tb cas v)
    (run_loop_rel (otto_pass ops tb cas) otto_count_nans OttoExt ottoExt_refl
      (fun _ _ _ => ottoExt_trans) (otto_pass_ext ops tb cas) _ _
      (otto_seed tb cas v))

theorem diesel_system_variables_ext {α : Type} [Inhabited α] (ops : NumOps α)
    (cas : Bool) (v : DieselVars α) :
    DieselExt v (diesel_system_variables ops cas v) := by
  obtain ⟨r, rc, R, cv, cp, gm, Qh, Qc, Wi, Wo, W, n, p1, p2, p3, p4⟩ := v
  refine ⟨?_, ?_, ?_, ?_, ?_, ?_, ?_, ?_, ?_, ?_, ?_, ?_,
    ⟨?_, ?_, ?_, ?_, ?_, ?_⟩, ⟨?_, ?_, ?_, ?_, ?_, ?_⟩,
    ⟨?_, ?_, ?_, ?_, ?_, ?_⟩, ⟨?_, ?_, ?_, ?_, ?_, ?_⟩⟩ <;>
    intro x hx <;> first
      | exact hx
      | (subst hx; rfl)

theorem diesel_step_1_ext {α : Type} [Inhabited α] (ops : NumOps α)
    (tb : Tables α) (v : DieselVars α) :
    DieselExt v (diesel_step_1 ops tb v) := by
  obtain ⟨r, rc, R, cv, cp, gm, Qh, Qc, Wi, Wo, W, n, p1, p2, p3, p4⟩ := v
  obtain ⟨T1, P1, v1, s1, h1, u1⟩ := p1
  refine ⟨?_, ?_, ?_, ?_, ?_, ?_, ?_, ?_, ?_, ?_, ?_, ?_,
    ⟨?_, ?_, ?_, ?_, ?_, ?_⟩, ⟨?_, ?_, ?_, ?_, ?_, ?_⟩,
    ⟨?_, ?_, ?_, ?_, ?_, ?_⟩, ⟨?_, ?_, ?_, ?_, ?_, ?_⟩⟩ <;>
    intro x hx <;> first
      | exact hx
      | (subst hx; rfl)

theorem diesel_step_2_ext {α : Type} [Inhabited α] (ops : NumOps α)
    (tb : Tables α) (v : DieselVars α) :
    DieselExt v (diesel_step_2 ops tb v) := by
  obtain ⟨r, rc, R, cv, cp, gm, Qh, Qc, Wi, Wo, W, n, p1, p2, p3, p4⟩ := v
  obtain ⟨T2, P2, v2, s2, h2, u2⟩ := p2
  refine ⟨?_, ?_, ?_, ?_, ?_, ?_, ?_, ?_, ?_, ?_, ?_, ?_,
    ⟨?_, ?_, ?_, ?_, ?_, ?_⟩, ⟨?_, ?_, ?_, ?_, ?_, ?_⟩,
    ⟨?_, ?_, ?_, ?_, ?_, ?_⟩, ⟨?_, ?_, ?_, ?_, ?_, ?_⟩⟩ <;>
    intro x hx <;> first
      | exact hx
      | (subst hx; rfl)

theorem diesel_step_3_ext {α : Type} [Inhabited α] (ops : NumOps α)
    (tb : Tables α) (v : DieselVars α) :
    DieselExt v (diesel_step_3 ops tb v) := by
  obtain ⟨r, rc, R, cv, cp, gm, Qh, Qc, Wi, Wo, W, n, p1, p2, p3, p4⟩ := v
  obtain ⟨T3, P3, v3, s3, h3, u3⟩ := p3
  refine ⟨?_, ?_, ?_, ?_, ?_, ?_, ?_, ?_, ?_, ?_, ?_, ?_,
    ⟨?_, ?_, ?_, ?_, ?_, ?_⟩, ⟨?_, ?_, ?_, ?_, ?_, ?_⟩,
    ⟨?_, ?_, ?_, ?_, ?_, ?_⟩, ⟨?_, ?_, ?_, ?_, ?_, ?_⟩⟩ <;>
    intro x hx <;> first
      | exact hx
      | (subst hx; rfl)

theorem diesel_step_4_ext {α : Type} [Inhabited α] (ops : NumOps α)
    (tb : Tables α) (v : DieselVars α) :
    DieselExt v (diesel_step_4 ops tb v) := by
  obtain ⟨r, rc, R, cv, cp, gm, Qh, Qc, Wi, Wo, W, n, p1, p2, p3, p4⟩ := v
  obtain ⟨T4, P4, v4, s4, h4, u4⟩ := p4
  refine ⟨?_, ?_, ?_, ?_, ?_, ?_, ?_, ?_, ?_, ?_, ?_, ?_,
    ⟨?_, ?_, ?_, ?_, ?_, ?_⟩, ⟨?_, ?_, ?_, ?_, ?_, ?_⟩,
    ⟨?_, ?_, ?_, ?_, ?_, ?_⟩, ⟨?_, ?_, ?_, ?_, ?_, ?_⟩⟩ <;>
    intro x hx <;> first
      | exact hx
      | (subst hx; rfl)

theorem diesel_seed_ext {α : Type} [Inhabited α] (tb : Tables α) (cas : Bool)
    (v : DieselVars α) : DieselExt v (diesel_seed tb cas v) := by
  obtain ⟨r, rc, R, cv, cp, gm, Qh, Qc, Wi, Wo, W, n, p1, p2, p3, p4⟩ := v
  refine ⟨?_, ?_, ?_, ?_, ?_, ?_, ?_, ?_, ?_, ?_, ?_, ?_,
    ⟨?_, ?_, ?_, ?_, ?_, ?_⟩, ⟨?_, ?_, ?_, ?_, ?_, ?_⟩,
    ⟨?_, ?_, ?_, ?_, ?_, ?_⟩, ⟨?_, ?_, ?_, ?_, ?_, ?_⟩⟩ <;>
    intro x hx <;> first
      | exact hx
      | (subst hx; rfl)

theorem diesel_pass_ext {α : Type} [Inhabited α] (ops : NumOps α)
    (tb : Tables α) (cas : Bool) (v : DieselVars α) :
    DieselExt v (diesel_pass ops tb cas v) :=
  dieselExt_trans (diesel_system_variables_ext ops cas v)
    (dieselExt_trans (diesel_step_1_ext ops tb _)
      (dieselExt_trans (diesel_step_2_ext ops tb _)
        (dieselExt_trans (diesel_step_3_ext ops tb _)
          (diesel_step_4_ext ops tb _))))

theorem solve_diesel_cycle_ext {α : Type} [Inhabited α] (ops : NumOps α)
    (tb : Tables α) (cas : Bool) (v : DieselVars α) :
    DieselExt v (solve_diesel_cycle ops tb cas v).1 :=
  dieselExt_trans (diesel_seed_ext tb cas v)
    (run_loop_rel (diesel_pass ops tb cas) diesel_count_nans DieselExt
      dieselExt_refl (fun _ _ _ => dieselExt_trans)
      (diesel_pass_ext ops tb cas) _ _ (diesel_seed tb cas v))

/-! ## Fully known states: the solve is the identity -/

theorem opt_of_isNone_false {α : Type} {x : Option α} (h : x.isNone = false) :
    ∃ a, x = some a := by
  cases x with
  | none => simp at h
  | some a => exact ⟨a, rfl⟩

def spAllKnown {α : Type} (p : StatePoint α) : Prop :=
  p.T.isNone = false ∧ p.P.isNone = false ∧ p.v.isNone = false ∧
    p.s.isNone = false ∧ p.h.isNone = false ∧ p.u.isNone = false

def ottoAllKnown {α : Type} (v : OttoVars α) : Prop :=
  v.r.isNone = false ∧ v.R.isNone = false ∧ v.cv.isNone = false ∧
    v.gamma.isNone = false ∧ v.Qh.isNone = false ∧ v.Qc.isNone = false ∧
    v.Wi.isNone = false ∧ v.Wo.isNone = false ∧ v.W.isNone = false ∧
    v.n.isNone = false ∧ spAllKnown v.p1 ∧ spAllKnown v.p2 ∧
    spAllKnown v.p3 ∧ spAllKnown v.p4

def dieselAllKnown {α : Type} (v : DieselVars α) : Prop :=
  v.r.isNone = false ∧ v.rc.isNone = false ∧ v.R.isNone = false ∧
    v.cv.isNone = false ∧ v.cp.isNone = false ∧ v.gamma.isNone = false ∧
    v.Qh.isNone = false ∧ v.Qc.isNone = false ∧ v.Wi.isNone = false ∧
    v.Wo.isNone = false ∧ v.W.isNone = false ∧ v.n.isNone = false ∧
    spAllKnown v.p1 ∧ spAllKnown v.p2 ∧ spAllKnown v.p3 ∧ spAllKnown v.p4

theorem otto_count_nans_zero {α : Type} {v : OttoVars α}
    (h : otto_count_nans v = 0) : ottoAllKnown v := by
  unfold otto_count_nans spCount at h
  unfold ottoAllKnown spAllKnown
  refine ⟨?_, ?_, ?_, ?_, ?_, ?_, ?_, ?_, ?_, ?_,
    ⟨?_, ?_, ?_, ?_, ?_, ?_⟩, ⟨?_, ?_, ?_, ?_, ?_, ?_⟩,
    ⟨?_, ?_, ?_, ?_, ?_, ?_⟩, ⟨?_, ?_, ?_, ?_, ?_, ?_⟩⟩ <;>
    rw [← nanCount_eq_zero] <;> omega

theorem diesel_count_nans_zero {α : Type} {v : DieselVars α}
    (h : diesel_count_nans v = 0) : dieselAllKnown v := by
  unfold diesel_count_nans spCount at h
  unfold dieselAllKnown spAllKnown
  refine ⟨?_, ?_, ?_, ?_, ?_, ?_, ?_, ?_, ?_, ?_, ?_, ?_,
    ⟨?_, ?_, ?_, ?_, ?_, ?_⟩, ⟨?_, ?_, ?_, ?_, ?_, ?_⟩,
    ⟨?_, ?_, ?_, ?_, ?_, ?_⟩, ⟨?_, ?_, ?_, ?_, ?_, ?_⟩⟩ <;>
    rw [← nanCount_eq_zero] <;> omega

/-- A state point with all six fields known. -/
def spKS {α : Type} (a1 a2 a3 a4 a5 a6 : α) : StatePoint α :=
  { T := some a1, P := some a2, v := some a3, s := some a4,
    h := some a5, u := some a6 }

/-- An Otto variable set with all 34 fields known, written as an explicit
record so the no-op behaviour of each solver stage on it reduces by `rfl`
one stage at a time. -/
def ottoKS {α : Type}
    (x1 x2 x3 x4 x5 x6 x7 x8 x9 x10 : α) (p1 p2 p3 p4 : StatePoint α) :
    OttoVars α :=
  { r := some x1, R := some x2, cv := some x3, gamma := some x4,
    Qh := some x5, Qc := some x6, Wi := some x7, Wo := some x8,
    W := some x9, n := some x10, p1 := p1, p2 := p2, p3 := p3, p4 := p4 }

/-- `system_variables` changes nothing on an all-known Otto state. -/
theorem otto_sv_ks {α : Type} [Inhabited α] (ops : NumOps α) (cas : Bool)
    (x1 x2 x3 x4 x5 x6 x7 x8 x9 x10 y1 y2 y3 y4 y5 y6 z1 z2 z3 z4 z5 z6
      w1 w2 w3 w4 w5 w6 q1 q2 q3 q4 q5 q6 : α) :
    otto_system_variables ops cas
      (ottoKS x1 x2 x3 x4 x5 x6 x7 x8 x9 x10 (spKS y1 y2 y3 y4 y5 y6)
        (spKS z1 z2 z3 z4 z5 z6) (spKS w1 w2 w3 w4 w5 w6)
        (spKS q1 q2 q3 q4 q5 q6)) =
      ottoKS x1 x2 x3 x4 x5 x6 x7 x8 x9 x10 (spKS y1 y2 y3 y4 y5 y6)
        (spKS z1 z2 z3 z4 z5 z6) (spKS w1 w2 w3 w4 w5 w6)
        (spKS q1 q2 q3 q4 q5 q6) := by
  cases cas <;> rfl

/-- `step_1` changes nothing on an all-known Otto state. -/
theorem otto_s1_ks {α : Type} [Inhabited α] (ops : NumOps α) (tb : Tables α)
    (cas : Bool)
    (x1 x2 x3 x4 x5 x6 x7 x8 x9 x10 y1 y2 y3 y4 y5 y6 z1 z2 z3 z4 z5 z6
      w1 w2 w3 w4 w5 w6 q1 q2 q3 q4 q5 q6 : α) :
    otto_step_1 ops tb cas
      (ottoKS x1 x2 x3 x4 x5 x6 x7 x8 x9 x10 (spKS y1 y2 y3 y4 y5 y6)
        (spKS z1 z2 z3 z4 z5 z6) (spKS w1 w2 w3 w4 w5 w6)
        (spKS q1 q2 q3 q4 q5 q6)) =
      ottoKS x1 x2 x3 x4 x5 x6 x7 x8 x9 x10 (spKS y1 y2 y3 y4 y5 y6)
        (spKS z1 z2 z3 z4 z5 z6) (spKS w1 w2 w3 w4 w5 w6)
        (spKS q1 q2 q3 q4 q5 q6) := by
  cases cas <;> rfl

/-- `step_2` changes nothing on an all-known Otto state. -/
theorem otto_s2_ks {α : Type} [Inhabited α] (ops : NumOps α) (tb : Tables α)
    (cas : Bool)
    (x1 x2 x3 x4 x5 x6 x7 x8 x9 x10 y1 y2 y3 y4 y5 y6 z1 z2 z3 z4 z5 z6
      w1 w2 w3 w4 w5 w6 q1 q2 q3 q4 q5 q6 : α) :
    otto_step_2 ops tb cas
      (ottoKS x1 x2 x3 x4 x5 x6 x7 x8 x9 x10 (spKS y1 y2 y3 y4 y5 y6)
        (spKS z1 z2 z3 z4 z5 z6) (spKS w1 w2 w3 w4 w5 w6)
        (spKS q1 q2 q3 q4 q5 q6)) =
      ottoKS x1 x2 x3 x4 x5 x6 x7 x8 x9 x10 (spKS y1 y2 y3 y4 y5 y6)
        (spKS z1 z2 z3 z4 z5 z6) (spKS w1 w2 w3 w4 w5 w6)
        (spKS q1 q2 q3 q4 q5 q6) := by
  cases cas <;> rfl

/-- `step_3` changes nothing on an all-known Otto state. -/
theorem otto_s3_ks {α : Type} [Inhabited α] (ops : NumOps α) (tb : Tables α)
    (cas : Bool)
    (x1 x2 x3 x4 x5 x6 x7 x8 x9 x10 y1 y2 y3 y4 y5 y6 z1 z2 z3 z4 z5 z6
      w1 w2 w3 w4 w5 w6 q1 q2 q3 q4 q5 q6 : α) :
    otto_step_3 ops tb cas
      (ottoKS x1 x2 x3 x4 x5 x6 x7 x8 x9 x10 (spKS y1 y2 y3 y4 y5 y6)
        (spKS z1 z2 z3 z4 z5 z6) (spKS w1 w2 w3 w4 w5 w6)
        (spKS q1 q2 q3 q4 q5 q6)) =
      ottoKS x1 x2 x3 x4 x5 x6 x7 x8 x9 x10 (spKS y1 y2 y3 y4 y5 y6)
        (spKS z1 z2 z3 z4 z5 z6) (spKS w1 w2 w3 w4 w5 w6)
        (spKS q1 q2 q3 q4 q5 q6) := by
  cases cas <;> rfl

/-- `step_4` changes nothing on an all-known Otto state. -/
theorem otto_s4_ks {α : Type} [Inhabited α] (ops : NumOps α) (tb : Tables α)
    (cas : Bool)
    (x1 x2 x3 x4 x5 x6 x7 x8 x9 x10 y1 y2 y3 y4 y5 y6 z1 z2 z3 z4 z5 z6
      w1 w2 w3 w4 w5 w6 q1 q2 q3 q4 q5 q6 : α) :
    otto_step_4 ops tb cas
      (ottoKS x1 x2 x3 x4 x5 x6 x7 x8 x9 x10 (spKS y1 y2 y3 y4 y5 y6)
        (spKS z1 z2 z3 z4 z5 z6) (spKS w1 w2 w3 w4 w5 w6)
        (spKS q1 q2 q3 q4 q5 q6)) =
      ottoKS x1 x2 x3 x4 x5 x6 x7 x8 x9 x10 (spKS y1 y2 y3 y4 y5 y6)
        (spKS z1 z2 z3 z4 z5 z6) (spKS w1 w2 w3 w4 w5 w6)
        (spKS q1 q2 q3 q4 q5 q6) := by
  cases cas <;> rfl

/-- The pre-loop seeding changes nothing on an all-known Otto state. -/
theorem otto_seed_ks {α : Type} [Inhabited α] (tb : Tables α) (cas : Bool)
    (x1 x2 x3 x4 x5 x6 x7 x8 x9 x10 y1 y2 y3 y4 y5 y6 z1 z2 z3 z4 z5 z6
      w1 w2 w3 w4 w5 w6 q1 q2 q3 q4 q5 q6 : α) :
    otto_seed tb cas
      (ottoKS x1 x2 x3 x4 x5 x6 x7 x8 x9 x10 (spKS y1 y2 y3 y4 y5 y6)
        (spKS z1 z2 z3 z4 z5 z6) (spKS w1 w2 w3 w4 w5 w6)
        (spKS q1 q2 q3 q4 q5 q6)) =
      ottoKS x1 x2 x3 x4 x5 x6 x7 x8 x9 x10 (spKS y1 y2 y3 y4 y5 y6)
        (spKS z1 z2 z3 z4 z5 z6) (spKS w1 w2 w3 w4 w5 w6)
        (spKS q1 q2 q3 q4 q5 q6) := by
  cases cas <;> rfl

/-- An all-known Otto state has zero unknowns. -/
theorem otto_cnt_ks {α : Type}
    (x1 x2 x3 x4 x5 x6 x7 x8 x9 x10 y1 y2 y3 y4 y5 y6 z1 z2 z3 z4 z5 z6
      w1 w2 w3 w4 w5 w6 q1 q2 q3 q4 q5 q6 : α) :
    otto_count_nans
      (ottoKS x1 x2 x3 x4 x5 x6 x7 x8 x9 x10 (spKS y1 y2 y3 y4 y5 y6)
        (spKS z1 z2 z3 z4 z5 z6) (spKS w1 w2 w3 w4 w5 w6)
        (spKS q1 q2 q3 q4 q5 q6)) = 0 := rfl

/-- One full pass changes nothing on an all-known Otto state. -/
theorem otto_pass_ks {α : Type} [Inhabited α] (ops : NumOps α)
    (tb : Tables α) (cas : Bool)
    (x1 x2 x3 x4 x5 x6 x7 x8 x9 x10 y1 y2 y3 y4 y5 y6 z1 z2 z3 z4 z5 z6
      w1 w2 w3 w4 w5 w6 q1 q2 q3 q4 q5 q6 : α) :
    otto_pass ops tb cas
      (ottoKS x1 x2 x3 x4 x5 x6 x7 x8 x9 x10 (spKS y1 y2 y3 y4 y5 y6)
        (spKS z1 z2 z3 z4 z5 z6) (spKS w1 w2 w3 w4 w5 w6)
        (spKS q1 q2 q3 q4 q5 q6)) =
      ottoKS x1 x2 x3 x4 x5 x6 x7 x8 x9 x10 (spKS y1 y2 y3 y4 y5 y6)
        (spKS z1 z2 z3 z4 z5 z6) (spKS w1 w2 w3 w4 w5 w6)
        (spKS q1 q2 q3 q4 q5 q6) := by
  unfold otto_pass
  rw [otto_sv_ks, otto_s1_ks, otto_s2_ks, otto_s3_ks, otto_s4_ks]

/-- The whole solve returns an all-known Otto state unchanged after one
pass. -/
theorem otto_solve_ks {α : Type} [Inhabited α] (ops : NumOps α)
    (tb : Tables α) (cas : Bool)
    (x1 x2 x3 x4 x5 x6 x7 x8 x9 x10 y1 y2 y3 y4 y5 y6 z1 z2 z3 z4 z5 z6
      w1 w2 w3 w4 w5 w6 q1 q2 q3 q4 q5 q6 : α) :
    solve_otto_cycle ops tb cas
      (ottoKS x1 x2 x3 x4 x5 x6 x7 x8 x9 x10 (spKS y1 y2 y3 y4 y5 y6)
        (spKS z1 z2 z3 z4 z5 z6) (spKS w1 w2 w3 w4 w5 w6)
        (spKS q1 q2 q3 q4 q5 q6)) =
      (ottoKS x1 x2 x3 x4 x5 x6 x7 x8 x9 x10 (spKS y1 y2 y3 y4 y5 y6)
        (spKS z1 z2 z3 z4 z5 z6) (spKS w1 w2 w3 w4 w5 w6)
        (spKS q1 q2 q3 q4 q5 q6), 1) := by
  unfold solve_otto_cycle
  simp only [otto_seed_ks, otto_cnt_ks, run_loop, otto_pass_ks]
  simp

/-- A Diesel variable set with all 36 fields known. -/
def dieselKS {α : Type}
    (x1 x2 x3 x4 x5 x6 x7 x8 x9 x10 x11 x12 : α)
    (p1 p2 p3 p4 : StatePoint α) : DieselVars α :=
  { r := some x1, rc := some x2, R := some x3, cv := some x4,
    cp := some x5, gamma := some x6, Qh := some x7, Qc := some x8,
    Wi := some x9, Wo := some x10, W := some x11, n := some x12,
    p1 := p1, p2 := p2, p3 := p3, p4 := p4 }

/-- `system_variables` changes nothing on an all-known Diesel state. -/
theorem diesel_sv_ks {α : Type} [Inhabited α] (ops : NumOps α) (cas : Bool)
    (x1 x2 x3 x4 x5 x6 x7 x8 x9 x10 x11 x12 y1 y2 y3 y4 y5 y6
      z1 z2 z3 z4 z5 z6 w1 w2 w3 w4 w5 w6 q1 q2 q3 q4 q5 q6 : α) :
    diesel_system_variables ops cas
      (dieselKS x1 x2 x3 x4 x5 x6 x7 x8 x9 x10 x11 x12
        (spKS y1 y2 y3 y4 y5 y6) (spKS z1 z2 z3 z4 z5 z6)
        (spKS w1 w2 w3 w4 w5 w6) (spKS q1 q2 q3 q4 q5 q6)) =
      dieselKS x1 x2 x3 x4 x5 x6 x7 x8 x9 x10 x11 x12
        (spKS y1 y2 y3 y4 y5 y6) (spKS z1 z2 z3 z4 z5 z6)
        (spKS w1 w2 w3 w4 w5 w6) (spKS q1 q2 q3 q4 q5 q6) := by
  cases cas <;> rfl

/-- `step_1` changes nothing on an all-known Diesel state. -/
theorem diesel_s1_ks {α : Type} [Inhabited α] (ops : NumOps α)
    (tb : Tables α)
    (x1 x2 x3 x4 x5 x6 x7 x8 x9 x10 x11 x12 y1 y2 y3 y4 y5 y6
      z1 z2 z3 z4 z5 z6 w1 w2 w3 w4 w5 w6 q1 q2 q3 q4 q5 q6 : α) :
    diesel_step_1 ops tb
      (dieselKS x1 x2 x3 x4 x5 x6 x7 x8 x9 x10 x11 x12
        (spKS y1 y2 y3 y4 y5 y6) (spKS z1 z2 z3 z4 z5 z6)
        (spKS w1 w2 w3 w4 w5 w6) (spKS q1 q2 q3 q4 q5 q6)) =
      dieselKS x1 x2 x3 x4 x5 x6 x7 x8 x9 x10 x11 x12
        (spKS y1 y2 y3 y4 y5 y6) (spKS z1 z2 z3 z4 z5 z6)
        (spKS w1 w2 w3 w4 w5 w6) (spKS q1 q2 q3 q4 q5 q6) := rfl

/-- `step_2` changes nothing on an all-known Diesel state. -/
theorem diesel_s2_ks {α : Type} [Inhabited α] (ops : NumOps α)
    (tb : Tables α)
    (x1 x2 x3 x4 x5 x6 x7 x8 x9 x10 x11 x12 y1 y2 y3 y4 y5 y6
      z1 z2 z3 z4 z5 z6 w1 w2 w3 w4 w5 w6 q1 q2 q3 q4 q5 q6 : α) :
    diesel_step_2 ops tb
      (dieselKS x1 x2 x3 x4 x5 x6 x7 x8 x9 x10 x11 x12
        (spKS y1 y2 y3 y4 y5 y6) (spKS z1 z2 z3 z4 z5 z6)
        (spKS w1 w2 w3 w4 w5 w6) (spKS q1 q2 q3 q4 q5 q6)) =
      dieselKS x1 x2 x3 x4 x5 x6 x7 x8 x9 x10 x11 x12
        (spKS y1 y2 y3 y4 y5 y6) (spKS z1 z2 z3 z4 z5 z6)
        (spKS w1 w2 w3 w4 w5 w6) (spKS q1 q2 q3 q4 q5 q6) := rfl

/-- `step_3` changes nothing on an all-known Diesel state. -/
theorem diesel_s3_ks {α : Type} [Inhabited α] (ops : NumOps α)
    (tb : Tables α)
    (x1 x2 x3 x4 x5 x6 x7 x8 x9 x10 x11 x12 y1 y2 y3 y4 y5 y6
      z1 z2 z3 z4 z5 z6 w1 w2 w3 w4 w5 w6 q1 q2 q3 q4 q5 q6 : α) :
    diesel_step_3 ops tb
      (dieselKS x1 x2 x3 x4 x5 x6 x7 x8 x9 x10 x11 x12
        (spKS y1 y2 y3 y4 y5 y6) (spKS z1 z2 z3 z4 z5 z6)
        (spKS w1 w2 w3 w4 w5 w6) (spKS q1 q2 q3 q4 q5 q6)) =
      dieselKS x1 x2 x3 x4 x5 x6 x7 x8 x9 x10 x11 x12
        (spKS y1 y2 y3 y4 y5 y6) (spKS z1 z2 z3 z4 z5 z6)
        (spKS w1 w2 w3 w4 w5 w6) (spKS q1 q2 q3 q4 q5 q6) := rfl

/-- `step_4` changes nothing on an all-known Diesel state. -/
theorem diesel_s4_ks {α : Type} [Inhabited α] (ops : NumOps α)
    (tb : Tables α)
    (x1 x2 x3 x4 x5 x6 x7 x8 x9 x10 x11 x12 y1 y2 y3 y4 y5 y6
      z1 z2 z3 z4 z5 z6 w1 w2 w3 w4 w5 w6 q1 q2 q3 q4 q5 q6 : α) :
    diesel_step_4 ops tb
      (dieselKS x1 x2 x3 x4 x5 x6 x7 x8 x9 x10 x11 x12
        (spKS y1 y2 y3 y4 y5 y6) (spKS z1 z2 z3 z4 z5 z6)
        (spKS w1 w2 w3 w4 w5 w6) (spKS q1 q2 q3 q4 q5 q6)) =
      dieselKS x1 x2 x3 x4 x5 x6 x7 x8 x9 x10 x11 x12
        (spKS y1 y2 y3 y4 y5 y6) (spKS z1 z2 z3 z4 z5 z6)
        (spKS w1 w2 w3 w4 w5 w6) (spKS q1 q2 q3 q4 q5 q6) := rfl

/-- The pre-loop seeding changes nothing on an all-known Diesel state. -/
theorem diesel_seed_ks {α : Type} [Inhabited α] (tb : Tables α) (cas : Bool)
    (x1 x2 x3 x4 x5 x6 x7 x8 x9 x10 x11 x12 y1 y2 y3 y4 y5 y6
      z1 z2 z3 z4 z5 z6 w1 w2 w3 w4 w5 w6 q1 q2 q3 q4 q5 q6 : α) :
    diesel_seed tb cas
      (dieselKS x1 x2 x3 x4 x5 x6 x7 x8 x9 x10 x11 x12
        (spKS y1 y2 y3 y4 y5 y6) (spKS z1 z2 z3 z4 z5 z6)
        (spKS w1 w2 w3 w4 w5 w6) (spKS q1 q2 q3 q4 q5 q6)) =
      dieselKS x1 x2 x3 x4 x5 x6 x7 x8 x9 x10 x11 x12
        (spKS y1 y2 y3 y4 y5 y6) (spKS z1 z2 z3 z4 z5 z6)
        (spKS w1 w2 w3 w4 w5 w6) (spKS q1 q2 q3 q4 q5 q6) := by
  cases cas <;> rfl

/-- An all-known Diesel state has zero unknowns. -/
theorem diesel_cnt_ks {α : Type}
    (x1 x2 x3 x4 x5 x6 x7 x8 x9 x10 x11 x12 y1 y2 y3 y4 y5 y6
      z1 z2 z3 z4 z5 z6 w1 w2 w3 w4 w5 w6 q1 q2 q3 q4 q5 q6 : α) :
    diesel_count_nans
      (dieselKS x1 x2 x3 x4 x5 x6 x7 x8 x9 x10 x11 x12
        (spKS y1 y2 y3 y4 y5 y6) (spKS z1 z2 z3 z4 z5 z6)
        (spKS w1 w2 w3 w4 w5 w6) (spKS q1 q2 q3 q4 q5 q6)) = 0 := rfl

/-- One full pass changes nothing on an all-known Diesel state. -/
theorem diesel_pass_ks {α : Type} [Inhabited α] (ops : NumOps α)
    (tb : Tables α) (cas : Bool)
    (x1 x2 x3 x4 x5 x6 x7 x8 x9 x10 x11 x12 y1 y2 y3 y4 y5 y6
      z1 z2 z3 z4 z5 z6 w1 w2 w3 w4 w5 w6 q1 q2 q3 q4 q5 q6 : α) :
    diesel_pass ops tb cas
      (dieselKS x1 x2 x3 x4 x5 x6 x7 x8 x9 x10 x11 x12
        (spKS y1 y2 y3 y4 y5 y6) (spKS z1 z2 z3 z4 z5 z6)
        (spKS w1 w2 w3 w4 w5 w6) (spKS q1 q2 q3 q4 q5 q6)) =
      dieselKS x1 x2 x3 x4 x5 x6 x7 x8 x9 x10 x11 x12
        (spKS y1 y2 y3 y4 y5 y6) (spKS z1 z2 z3 z4 z5 z6)
        (spKS w1 w2 w3 w4 w5 w6) (spKS q1 q2 q3 q4 q5 q6) := by
  unfold diesel_pass
  rw [diesel_sv_ks, diesel_s1_ks, diesel_s2_ks, diesel_s3_ks, diesel_s4_ks]

/-- The whole solve returns an all-known Diesel state unchanged after one
pass. -/
theorem diesel_solve_ks {α : Type} [Inhabited α] (ops : NumOps α)
    (tb : Tables α) (cas : Bool)
    (x1 x2 x3 x4 x5 x6 x7 x8 x9 x10 x11 x12 y1 y2 y3 y4 y5 y6
      z1 z2 z3 z4 z5 z6 w1 w2 w3 w4 w5 w6 q1 q2 q3 q4 q5 q6 : α) :
    solve_diesel_cycle ops tb cas
      (dieselKS x1 x2 x3 x4 x5 x6 x7 x8 x9 x10 x11 x12
        (spKS y1 y2 y3 y4 y5 y6) (spKS z1 z2 z3 z4 z5 z6)
        (spKS w1 w2 w3 w4 w5 w6) (spKS q1 q2 q3 q4 q5 q6)) =
      (dieselKS x1 x2 x3 x4 x5 x6 x7 x8 x9 x10 x11 x12
        (spKS y1 y2 y3 y4 y5 y6) (spKS z1 z2 z3 z4 z5 z6)
        (spKS w1 w2 w3 w4 w5 w6) (spKS q1 q2 q3 q4 q5 q6), 1) := by
  unfold solve_diesel_cycle
  simp only [diesel_seed_ks, diesel_cnt_ks, run_loop, diesel_pass_ks]
  simp

attribute [ext] StatePoint OttoVars DieselVars

/-- A known optional value is `some` of its payload. -/
theorem opt_eta {α : Type} [Inhabited α] {x : Option α}
    (h : x.isNone = false) : x = some x.get! := by
  cases x with
  | none => simp at h
  | some a => rfl

/-- An all-known state point is `spKS` of its six payloads. -/
theorem sp_eta {α : Type} [Inhabited α] {p : StatePoint α}
    (h : spAllKnown p) :
    p = spKS p.T.get! p.P.get! p.v.get! p.s.get! p.h.get! p.u.get! := by
  obtain ⟨h1, h2, h3, h4, h5, h6⟩ := h
  exact StatePoint.ext (opt_eta h1) (opt_eta h2) (opt_eta h3) (opt_eta h4)
    (opt_eta h5) (opt_eta h6)

/-- An all-known Otto state is `ottoKS` of its 34 payloads. -/
theorem otto_eta {α : Type} [Inhabited α] {v : OttoVars α}
    (h : ottoAllKnown v) :
    v = ottoKS v.r.get! v.R.get! v.cv.get! v.gamma.get! v.Qh.get! v.Qc.get!
      v.Wi.get! v.Wo.get! v.W.get! v.n.get!
      (spKS v.p1.T.get! v.p1.P.get! v.p1.v.get! v.p1.s.get! v.p1.h.get!
        v.p1.u.get!)
      (spKS v.p2.T.get! v.p2.P.get! v.p2.v.get! v.p2.s.get! v.p2.h.get!
        v.p2.u.get!)
      (spKS v.p3.T.get! v.p3.P.get! v.p3.v.get! v.p3.s.get! v.p3.h.get!
        v.p3.u.get!)
      (spKS v.p4.T.get! v.p4.P.get! v.p4.v.get! v.p4.s.get! v.p4.h.get!
        v.p4.u.get!) := by
  obtain ⟨h1, h2, h3, h4, h5, h6, h7, h8, h9, h10, hp1, hp2, hp3, hp4⟩ := h
  exact OttoVars.ext (opt_eta h1) (opt_eta h2) (opt_eta h3) (opt_eta h4)
    (opt_eta h5) (opt_eta h6) (opt_eta h7) (opt_eta h8) (opt_eta h9)
    (opt_eta h10) (sp_eta hp1) (sp_eta hp2) (sp_eta hp3) (sp_eta hp4)

/-- An all-known Diesel state is `dieselKS` of its 36 payloads. -/
theorem diesel_eta {α : Type} [Inhabited α] {v : DieselVars α}
    (h : dieselAllKnown v) :
    v = dieselKS v.r.get! v.rc.get! v.R.get! v.cv.get! v.cp.get!
      v.gamma.get! v.Qh.get! v.Qc.get! v.Wi.get! v.Wo.get! v.W.get!
      v.n.get!
      (spKS v.p1.T.get! v.p1.P.get! v.p1.v.get! v.p1.s.get! v.p1.h.get!
        v.p1.u.get!)
      (spKS v.p2.T.get! v.p2.P.get! v.p2.v.get! v.p2.s.get! v.p2.h.get!
        v.p2.u.get!)
      (spKS v.p3.T.get! v.p3.P.get! v.p3.v.get! v.p3.s.get! v.p3.h.get!
        v.p3.u.get!)
      (spKS v.p4.T.get! v.p4.P.get! v.p4.v.get! v.p4.s.get! v.p4.h.get!
        v.p4.u.get!) := by
  obtain ⟨h1, h2, h3, h4, h5, h6, h7, h8, h9, h10, h11, h12,
    hp1, hp2, hp3, hp4⟩ := h
  exact DieselVars.ext (opt_eta h1) (opt_eta h2) (opt_eta h3) (opt_eta h4)
    (opt_eta h5) (opt_eta h6) (opt_eta h7) (opt_eta h8) (opt_eta h9)
    (opt_eta h10) (opt_eta h11) (opt_eta h12) (sp_eta hp1) (sp_eta hp2)
    (sp_eta hp3) (sp_eta hp4)

/-- On a state with no unknowns every rule guard fails, the seeding is
skipped, the loop's first pass changes nothing and its count test stops it
at once: the solve returns the state unchanged. -/
theorem solve_otto_id {α : Type} [Inhabited α] (ops : NumOps α)
    (tb : Tables α) (cas : Bool) (v : OttoVars α)
    (h : otto_count_nans v = 0) : (solve_otto_cycle ops tb cas v).1 = v := by
  rw [otto_eta (otto_count_nans_zero h)]
  exact congrArg Prod.fst (otto_solve_ks ops tb cas v.r.get! v.R.get!
    v.cv.get! v.gamma.get! v.Qh.get! v.Qc.get! v.Wi.get! v.Wo.get! v.W.get!
    v.n.get! v.p1.T.get! v.p1.P.get! v.p1.v.get! v.p1.s.get! v.p1.h.get!
    v.p1.u.get! v.p2.T.get! v.p2.P.get! v.p2.v.get! v.p2.s.get! v.p2.h.get!
    v.p2.u.get! v.p3.T.get! v.p3.P.get! v.p3.v.get! v.p3.s.get! v.p3.h.get!
    v.p3.u.get! v.p4.T.get! v.p4.P.get! v.p4.v.get! v.p4.s.get! v.p4.h.get!
    v.p4.u.get!)

/-- Diesel analogue of `solve_otto_id`. -/
theorem solve_diesel_id {α : Type} [Inhabited α] (ops : NumOps α)
    (tb : Tables α) (cas : Bool) (v : DieselVars α)
    (h : diesel_count_nans v = 0) :
    (solve_diesel_cycle ops tb cas v).1 = v := by
  rw [diesel_eta (diesel_count_nans_zero h)]
  exact congrArg Prod.fst (diesel_solve_ks ops tb cas v.r.get! v.rc.get!
    v.R.get! v.cv.get! v.cp.get! v.gamma.get! v.Qh.get! v.Qc.get!
    v.Wi.get! v.Wo.get! v.W.get! v.n.get! v.p1.T.get! v.p1.P.get!
    v.p1.v.get! v.p1.s.get! v.p1.h.get! v.p1.u.get! v.p2.T.get!
    v.p2.P.get! v.p2.v.get! v.p2.s.get! v.p2.h.get! v.p2.u.get!
    v.p3.T.get! v.p3.P.get! v.p3.v.get! v.p3.s.get! v.p3.h.get!
    v.p3.u.get! v.p4.T.get! v.p4.P.get! v.p4.v.get! v.p4.s.get!
    v.p4.h.get! v.p4.u.get!)

/-! ## Frame lemmas: fields never written -/

/-- No Otto rule pass writes the state-1 temperature: `step_1` computes a
local `T1` but never stores it, and no other block touches point 1's `T`. -/
theorem otto_pass_p1T {α : Type} [Inhabited α] (ops : NumOps α)
    (tb : Tables α) (cas : Bool) (v : OttoVars α) :
    (otto_pass ops tb cas v).p1.T = v.p1.T := rfl

theorem diesel_pass_p1T {α : Type} [Inhabited α] (ops : NumOps α)
    (tb : Tables α) (cas : Bool) (v : DieselVars α) :
    (diesel_pass ops tb cas v).p1.T = v.p1.T := rfl

/-- No Otto rule pass writes `cv`; only the pre-loop seeding can. -/
theorem otto_pass_cv {α : Type} [Inhabited α] (ops : NumOps α)
    (tb : Tables α) (cas : Bool) (v : OttoVars α) :
    (otto_pass ops tb cas v).cv = v.cv := rfl

theorem diesel_pass_cv {α : Type} [Inhabited α] (ops : NumOps α)
    (tb : Tables α) (cas : Bool) (v : DieselVars α) :
    (diesel_pass ops tb cas v).cv = v.cv := rfl

theorem otto_seed_p1T {α : Type} [Inhabited α] (tb : Tables α) (cas : Bool)
    (v : OttoVars α) : (otto_seed tb cas v).p1.T = v.p1.T := rfl

theorem diesel_seed_p1T {α : Type} [Inhabited α] (tb : Tables α) (cas : Bool)
    (v : DieselVars α) : (diesel_seed tb cas v).p1.T = v.p1.T := rfl

theorem otto_seed_cv_of_T_none {α : Type} [Inhabited α] (tb : Tables α)
    (cas : Bool) (v : OttoVars α) (hT : v.p1.T = none) :
    (otto_seed tb cas v).cv = v.cv := by
  simp [otto_seed, unknown, known, hT]

theorem otto_seed_cv_of_T_some {α : Type} [Inhabited α] (tb : Tables α)
    (v : OttoVars α) (t : α) (hcv : v.cv = none) (hT : v.p1.T = some t) :
    (otto_seed tb true v).cv = some (tb.apdx4 "Air" "T" t "cv") := by
  simp [otto_seed, unknown, known, hT, hcv]

theorem diesel_seed_cv_of_T_none {α : Type} [Inhabited α] (tb : Tables α)
    (cas : Bool) (v : DieselVars α) (hT : v.p1.T = none) :
    (diesel_seed tb cas v).cv = v.cv := by
  simp [diesel_seed, unknown, known, hT]

theorem diesel_seed_cv_of_T_some {α : Type} [Inhabited α] (tb : Tables α)
    (v : DieselVars α) (t : α) (hcv : v.cv = none) (hT : v.p1.T = some t) :
    (diesel_seed tb true v).cv = some (tb.apdx4 "Air" "T" t "cv") := by
  simp [diesel_seed, unknown, known, hT, hcv]

theorem solve_otto_cycle_p1T {α : Type} [Inhabited α] (ops : NumOps α)
    (tb : Tables α) (cas : Bool) (v : OttoVars α) :
    (solve_otto_cycle ops tb cas v).1.p1.T = v.p1.T := by
  have h := run_loop_invariant (otto_pass ops tb cas) otto_count_nans
    (fun u => u.p1.T) (fun u => otto_pass_p1T ops tb cas u)
    (otto_count_nans (otto_seed tb cas v) + 1)
    (otto_count_nans (otto_seed tb cas v)) (otto_seed tb cas v)
  exact h

theorem solve_diesel_cycle_p1T {α : Type} [Inhabited α] (ops : NumOps α)
    (tb : Tables α) (cas : Bool) (v : DieselVars α) :
    (solve_diesel_cycle ops tb cas v).1.p1.T = v.p1.T := by
  have h := run_loop_invariant (diesel_pass ops tb cas) diesel_count_nans
    (fun u => u.p1.T) (fun u => diesel_pass_p1T ops tb cas u)
    (diesel_count_nans (diesel_seed tb cas v) + 1)
    (diesel_count_nans (diesel_seed tb cas v)) (diesel_seed tb cas v)
  exact h

theorem solve_otto_cycle_cv {α : Type} [Inhabited α] (ops : NumOps α)
    (tb : Tables α) (cas : Bool) (v : OttoVars α) :
    (solve_otto_cycle ops tb cas v).1.cv = (otto_seed tb cas v).cv := by
  have h := run_loop_invariant (otto_pass ops tb cas) otto_count_nans
    (fun u => u.cv) (fun u => otto_pass_cv ops tb cas u)
    (otto_count_nans (otto_seed tb cas v) + 1)
    (otto_count_nans (otto_seed tb cas v)) (otto_seed tb cas v)
  exact h

theorem solve_diesel_cycle_cv {α : Type} [Inhabited α] (ops : NumOps α)
    (tb : Tables α) (cas : Bool) (v : DieselVars α) :
    (solve_diesel_cycle ops tb cas v).1.cv = (diesel_seed tb cas v).cv := by
  have h := run_loop_invariant (diesel_pass ops tb cas) diesel_count_nans
    (fun u => u.cv) (fun u => diesel_pass_cv ops tb cas u)
    (diesel_count_nans (diesel_seed tb cas v) + 1)
    (diesel_count_nans (diesel_seed tb cas v)) (diesel_seed tb cas v)
  exact h

/-! ## Properties of the 1-D lookup

`np_interp` against the spec-side sorted interpolant: helper lemmas for the
sorted-table case, used by the lookup1D claim below. -/

theorem pw_le_getLastD (a : ℚ) (l : List ℚ)
    (hp : List.Pairwise (· < ·) (a :: l)) (d : ℚ) :
    a ≤ (a :: l).getLastD d := by
  induction l generalizing a d with
  | nil => simp [List.getLastD]
  | cons b t ih =>
    have hab : a < b := (List.pairwise_cons.mp hp).1 b (by simp)
    have hp2 : List.Pairwise (· < ·) (b :: t) := (List.pairwise_cons.mp hp).2
    have hb := ih b hp2 a
    calc a ≤ b := le_of_lt hab
    _ ≤ (b :: t).getLastD a := hb
    _ = ((a :: b :: t).getLastD d) := by simp [List.getLastD]

theorem getLastD_cons_irrel (a : ℚ) (l : List ℚ) (d e : ℚ) :
    (a :: l).getLastD d = (a :: l).getLastD e := by
  simp [List.getLastD]

theorem np_interp_step (a b : ℚ) (t : List ℚ) (c d : ℚ) (u : List ℚ) (x : ℚ)
    (hlen : t.length = u.length) (hab : a < b) (hbx : b ≤ x) :
    np_interp (a :: b :: t) (c :: d :: u) x = np_interp (b :: t) (d :: u) x := by
  have hax : a ≤ x := le_of_lt (lt_of_lt_of_le hab hbx)
  have hlast : (a :: b :: t).getLastD 0 = (b :: t).getLastD 0 := by
    simp [List.getLastD]
  have htwL : (a :: b :: t).takeWhile (fun y => decide (y ≤ x)) =
      a :: b :: t.takeWhile (fun y => decide (y ≤ x)) := by
    simp [List.takeWhile_cons, hax, hbx]
  have htwR : (b :: t).takeWhile (fun y => decide (y ≤ x)) =
      b :: t.takeWhile (fun y => decide (y ≤ x)) := by
    simp [List.takeWhile_cons, hbx]
  unfold np_interp
  rw [hlast, htwL, htwR]
  have hL1 : ¬((a :: b :: t).length = 0 ∨
      (a :: b :: t).length ≠ (c :: d :: u).length) := by simp [hlen]
  have hR1 : ¬((b :: t).length = 0 ∨ (b :: t).length ≠ (d :: u).length) := by
    simp [hlen]
  rw [if_neg hL1, if_neg hR1]
  by_cases hxl : x > (b :: t).getLastD 0
  · rw [if_pos hxl, if_pos hxl]
    simp [List.getLastD]
  · rw [if_neg hxl, if_neg hxl]
    have hxa : ¬ x < (a :: b :: t).headD 0 := by simp; linarith
    have hxb : ¬ x < (b :: t).headD 0 := by simp; linarith
    rw [if_neg hxa, if_neg hxb]
    set k := (t.takeWhile (fun y => decide (y ≤ x))).length with hk
    have e1 : (a :: b :: (t.takeWhile (fun y => decide (y ≤ x)))).length - 1 =
        k + 1 := by simp
    have e2 : (b :: (t.takeWhile (fun y => decide (y ≤ x)))).length - 1 = k := by
      simp
    rw [e1, e2]
    dsimp only
    have e3 : (k + 1 = (a :: b :: t).length - 1) ↔ (k = (b :: t).length - 1) := by
      simp
    have e4 : (a :: b :: t).getD (k + 1) 0 = (b :: t).getD k 0 := by
      simp [List.getD_cons_succ]
    have e5 : (c :: d :: u).getD (k + 1) 0 = (d :: u).getD k 0 := by
      simp [List.getD_cons_succ]
    have e6 : (a :: b :: t).getD (k + 1 + 1) 0 = (b :: t).getD (k + 1) 0 := by
      simp [List.getD_cons_succ]
    have e7 : (c :: d :: u).getD (k + 1 + 1) 0 = (d :: u).getD (k + 1) 0 := by
      simp [List.getD_cons_succ]
    by_cases hend : k = (b :: t).length - 1
    · rw [if_pos (e3.mpr hend), if_pos hend, e5]
    · rw [if_neg (fun hh => hend (e3.mp hh)), if_neg hend, e4, e5, e6, e7]

theorem np_interp_single (a c x : ℚ) : np_interp [a] [c] x = some c := by
  unfold np_interp
  have h1 : ¬(([a] : List ℚ).length = 0 ∨
      ([a] : List ℚ).length ≠ ([c] : List ℚ).length) := by simp
  rw [if_neg h1]
  by_cases h2 : x > ([a] : List ℚ).getLastD 0
  · rw [if_pos h2]; rfl
  · rw [if_neg h2]
    by_cases h3 : x < ([a] : List ℚ).headD 0
    · rw [if_pos h3]; rfl
    · rw [if_neg h3]
      have hax : a ≤ x := by simpa using h3
      have htw : ([a] : List ℚ).takeWhile (fun y => decide (y ≤ x)) = [a] := by
        simp [List.takeWhile_cons, hax]
      rw [htw]
      simp

theorem piecewiseInterp_single (x0 y0 x : ℚ) :
    piecewiseInterp [(x0, y0)] x = y0 := rfl

theorem piecewiseInterp_cons2 (x0 y0 x1 y1 : ℚ) (t : List (ℚ × ℚ)) (x : ℚ) :
    piecewiseInterp ((x0, y0) :: (x1, y1) :: t) x =
      if x ≤ x0 then y0
      else if x ≤ x1 then (y1 - y0) / (x1 - x0) * (x - x0) + y0
      else piecewiseInterp ((x1, y1) :: t) x := rfl

theorem piecewiseInterp_head (b d : ℚ) (t : List (ℚ × ℚ)) :
    piecewiseInterp ((b, d) :: t) b = d := by
  cases t with
  | nil => rfl
  | cons r t2 =>
    obtain ⟨e, f⟩ := r
    rw [piecewiseInterp_cons2, if_pos (le_refl b)]

theorem np_interp_pairs (l : List (ℚ × ℚ)) (x : ℚ) (hne : l ≠ [])
    (hp : List.Pairwise (· < ·) (l.map Prod.fst)) :
    np_interp (l.map Prod.fst) (l.map Prod.snd) x =
      some (piecewiseInterp l x) := by
  induction l generalizing x with
  | nil => exact absurd rfl hne
  | cons p rest ih =>
    obtain ⟨a, c⟩ := p
    cases rest with
    | nil => simpa [piecewiseInterp_single] using np_interp_single a c x
    | cons q rest2 =>
      obtain ⟨b, d⟩ := q
      simp only [List.map] at hp
      have hab : a < b := (List.pairwise_cons.mp hp).1 b (by simp)
      have hp2 : List.Pairwise (· < ·) (b :: rest2.map Prod.fst) :=
        (List.pairwise_cons.mp hp).2
      rcases le_or_lt b x with hbx | hxb
      · -- key at or beyond the second sample: peel the head row
        have hstep := np_interp_step a b (rest2.map Prod.fst) c d
          (rest2.map Prod.snd) x (by simp) hab hbx
        have hih := ih x (by simp) hp2
        simp only [List.map] at hih
        simp only [List.map]
        rw [hstep, hih]
        have hxa : ¬ x ≤ a := not_le.mpr (lt_of_lt_of_le hab hbx)
        rw [piecewiseInterp_cons2, if_neg hxa]
        rcases eq_or_lt_of_le hbx with rfl | hlt
        · rw [if_pos (le_refl b), piecewiseInterp_head]
          have hba : b - a ≠ 0 := sub_ne_zero.mpr (ne_of_gt hab)
          congr 1
          field_simp
        · rw [if_neg (not_le.mpr hlt)]
      · -- key strictly left of the second sample: direct evaluation
        have hblast : b ≤ (b :: rest2.map Prod.fst).getLastD a :=
          pw_le_getLastD b _ hp2 a
        have hlast : (a :: b :: rest2.map Prod.fst).getLastD 0 =
            (b :: rest2.map Prod.fst).getLastD a := by simp [List.getLastD]
        have hnotgt : ¬ x > (a :: b :: rest2.map Prod.fst).getLastD 0 := by
          rw [hlast]; push_neg; linarith
        have hlen : ¬((a :: b :: rest2.map Prod.fst).length = 0 ∨
            (a :: b :: rest2.map Prod.fst).length ≠
              (c :: d :: rest2.map Prod.snd).length) := by simp
        simp only [List.map]
        unfold np_interp
        rw [if_neg hlen, if_neg hnotgt]
        rcases lt_trichotomy x a with hxa | rfl | hax
        · rw [if_pos (by simpa using hxa)]
          rw [piecewiseInterp_cons2, if_pos (le_of_lt hxa)]
          rfl
        · rw [if_neg (by simp)]
          have htw : (x :: b :: rest2.map Prod.fst).takeWhile
              (fun y => decide (y ≤ x)) = [x] := by
            simp [List.takeWhile_cons, not_le.mpr hxb]
          rw [htw]
          have hj : ([x] : List ℚ).length - 1 = 0 := by simp
          rw [hj]
          rw [if_neg (by simp)]
          rw [if_pos (by simp)]
          rw [piecewiseInterp_cons2, if_pos (le_refl x)]
          rfl
        · rw [if_neg (by simp; linarith)]
          have htw : (a :: b :: rest2.map Prod.fst).takeWhile
              (fun y => decide (y ≤ x)) = [a] := by
            simp [List.takeWhile_cons, le_of_lt hax, not_le.mpr hxb]
          rw [htw]
          have hj : ([a] : List ℚ).length - 1 = 0 := by simp
          rw [hj]
          rw [if_neg (by simp)]
          rw [if_neg (by simp; exact ne_of_lt hax)]
          rw [piecewiseInterp_cons2, if_neg (not_le.mpr hax),
            if_pos (le_of_lt hxb)]
          simp

theorem piecewiseInterp_node (l : List (ℚ × ℚ))
    (hp : List.Pairwise (· < ·) (l.map Prod.fst)) :
    ∀ p ∈ l, piecewiseInterp l p.1 = p.2 := by
  induction l with
  | nil => intro p hmem; simp at hmem
  | cons q rest ih =>
    obtain ⟨a, c⟩ := q
    intro p hmem
    simp only [List.map] at hp
    have hlt : ∀ y ∈ rest, a < y.1 := by
      intro y hy
      exact (List.pairwise_cons.mp hp).1 y.1 (List.mem_map_of_mem Prod.fst hy)
    have hp2 : List.Pairwise (· < ·) (rest.map Prod.fst) :=
      (List.pairwise_cons.mp hp).2
    cases rest with
    | nil =>
      rcases List.mem_singleton.mp hmem with rfl
      exact piecewiseInterp_single a c a
    | cons q2 rest2 =>
      obtain ⟨b, d⟩ := q2
      rcases List.mem_cons.mp hmem with rfl | hmem2
      · rw [piecewiseInterp_cons2, if_pos (le_refl a)]
      · have hap : a < p.1 := hlt p hmem2
        rw [piecewiseInterp_cons2, if_neg (not_le.mpr hap)]
        rcases List.mem_cons.mp hmem2 with rfl | hmem3
        · rw [if_pos (le_refl _)]
          have hba : b - a ≠ 0 := sub_ne_zero.mpr (ne_of_gt (by simpa using hap))
          simp only
          field_simp
        · have hbp : b < p.1 := by
            have := (List.pairwise_cons.mp hp2).1 p.1
              (List.mem_map_of_mem Prod.fst hmem3)
            simpa using this
          rw [if_neg (not_le.mpr hbp)]
          exact ih hp2 p hmem2

theorem sortByAxis_sorted_id (l : List (ℚ × ℚ))
    (hp : List.Pairwise (· < ·) (l.map Prod.fst)) : sortByAxis l = l := by
  induction l with
  | nil => rfl
  | cons q rest ih =>
    simp only [List.map] at hp
    have hp2 : List.Pairwise (· < ·) (rest.map Prod.fst) :=
      (List.pairwise_cons.mp hp).2
    have : sortByAxis (q :: rest) = insertRow q (sortByAxis rest) := rfl
    rw [this, ih hp2]
    cases rest with
    | nil => rfl
    | cons q2 rest2 =>
      have hq : q.1 < q2.1 := (List.pairwise_cons.mp hp).1 q2.1 (by simp)
      unfold insertRow
      rw [if_pos (le_of_lt hq)]

theorem np_interp_clamp_high (dx dy : List ℚ) (x : ℚ) (hne : dx ≠ [])
    (hlen : dx.length = dy.length) (hx : dx.getLastD 0 < x) :
    np_interp dx dy x = some (dy.getLastD 0) := by
  have hguard : ¬(dx.length = 0 ∨ dx.length ≠ dy.length) := by
    push_neg
    exact ⟨fun h => hne (List.length_eq_zero.mp h), hlen⟩
  unfold np_interp
  rw [if_neg hguard, if_pos hx]

theorem np_interp_clamp_low (dx dy : List ℚ) (x : ℚ) (hne : dx ≠ [])
    (hp : List.Pairwise (· < ·) dx)
    (hlen : dx.length = dy.length) (hx : x < dx.headD 0) :
    np_interp dx dy x = some (dy.headD 0) := by
  have hguard : ¬(dx.length = 0 ∨ dx.length ≠ dy.length) := by
    push_neg
    exact ⟨fun h => hne (List.length_eq_zero.mp h), hlen⟩
  cases dx with
  | nil => exact absurd rfl hne
  | cons a t =>
    have hlast : a ≤ (a :: t).getLastD 0 := pw_le_getLastD a t hp 0
    have hxa : x < a := by simpa using hx
    have hngt : ¬ x > (a :: t).getLastD 0 := by push_neg; linarith
    unfold np_interp
    rw [if_neg hguard, if_neg hngt, if_pos hx]

theorem np_lookup1D_sorted (dx dy : List ℚ) (x : ℚ) (hne : dx ≠ [])
    (hlen : dx.length = dy.length) (hp : List.Pairwise (· < ·) dx) :
    np_interp dx dy x = some (spec_lookup1D (dx.zip dy) x) ∧
    (∀ p ∈ dx.zip dy, np_interp dx dy p.1 = some p.2) ∧
    (x < dx.headD 0 → np_interp dx dy x = some (dy.headD 0)) ∧
    (dx.getLastD 0 < x → np_interp dx dy x = some (dy.getLastD 0)) := by
  have hfst : (dx.zip dy).map Prod.fst = dx :=
    List.map_fst_zip dx dy (le_of_eq hlen)
  have hsnd : (dx.zip dy).map Prod.snd = dy :=
    List.map_snd_zip dx dy (ge_of_eq hlen)
  have hzne : dx.zip dy ≠ [] := by
    intro h
    have := congrArg List.length h
    simp [List.length_zip, ← hlen] at this
    exact hne this
  have hpz : List.Pairwise (· < ·) ((dx.zip dy).map Prod.fst) := by
    rw [hfst]; exact hp
  have hsort : sortByAxis (dx.zip dy) = dx.zip dy :=
    sortByAxis_sorted_id _ hpz
  have hmain : ∀ y : ℚ, np_interp dx dy y =
      some (piecewiseInterp (dx.zip dy) y) := by
    intro y
    have := np_interp_pairs (dx.zip dy) y hzne hpz
    rwa [hfst, hsnd] at this
  refine ⟨?_, ?_, ?_, ?_⟩
  · rw [hmain x]
    unfold spec_lookup1D
    rw [hsort]
  · intro p hp2
    rw [hmain p.1, piecewiseInterp_node _ hpz p hp2]
  · intro hx
    exact np_interp_clamp_low dx dy x hne hp hlen hx
  · intro hx
    exact np_interp_clamp_high dx dy x hne hlen hx

/-! ## Remaining helper lemmas for the claims -/

theorem mul_nonneg_of_not_oppositeSigns {a b : ℚ} (h : ¬ OppositeSigns a b) :
    0 ≤ a * b := by
  rcases le_or_lt 0 a with ha | ha
  · rcases le_or_lt 0 b with hb | hb
    · exact mul_nonneg ha hb
    · rcases eq_or_lt_of_le ha with heq | hapos
      · rw [← heq]; simp
      · exact absurd (Or.inr ⟨hapos, hb⟩) h
  · rcases le_or_lt 0 b with hb | hb
    · rcases eq_or_lt_of_le hb with heq | hbpos
      · rw [← heq]; simp
      · exact absurd (Or.inl ⟨ha, hbpos⟩) h
    · exact mul_nonneg_iff.mpr (Or.inr ⟨le_of_lt ha, le_of_lt hb⟩)

def lkOne : String → String → ℚ → String → ℚ := fun _ _ _ _ => 1

def demoRows : List (ℚ × ℚ × ℚ) := [(0, 0, 1), (1, 0, 2), (0, 1, 3)]

def demoGrid : ℚ × ℚ → Option ℚ := fun p =>
  if 0 ≤ p.1 ∧ 0 ≤ p.2 ∧ p.1 + p.2 ≤ 1 then some (1 + p.1 + 2 * p.2)
  else none

theorem nanCount_ite_some_le {α : Type} (c : Bool) (y : α) (x : Option α) :
    nanCount (if c then some y else x) ≤ nanCount x := by
  cases c <;> simp [nanCount]

theorem nanCount_ite_ite_some_le {α : Type} (c1 c2 : Bool) (y z : α)
    (x : Option α) :
    nanCount (if c1 then some y else if c2 then some z else x) ≤
      nanCount x := by
  cases c1 <;> cases c2 <;> simp [nanCount]

theorem otto_seed_count_le {α : Type} [Inhabited α] (tb : Tables α)
    (cas : Bool) (v : OttoVars α) :
    otto_count_nans (otto_seed tb cas v) ≤ otto_count_nans v := by
  have hgm : nanCount (otto_seed tb cas v).gamma ≤ nanCount v.gamma :=
    nanCount_ite_ite_some_le _ _ _ _ _
  have hR : nanCount (otto_seed tb cas v).R ≤ nanCount v.R :=
    nanCount_ite_some_le _ _ _
  have hcv : nanCount (otto_seed tb cas v).cv ≤ nanCount v.cv :=
    nanCount_ite_some_le _ _ _
  have hr : nanCount (otto_seed tb cas v).r = nanCount v.r := rfl
  have hQh : nanCount (otto_seed tb cas v).Qh = nanCount v.Qh := rfl
  have hQc : nanCount (otto_seed tb cas v).Qc = nanCount v.Qc := rfl
  have hWi : nanCount (otto_seed tb cas v).Wi = nanCount v.Wi := rfl
  have hWo : nanCount (otto_seed tb cas v).Wo = nanCount v.Wo := rfl
  have hW : nanCount (otto_seed tb cas v).W = nanCount v.W := rfl
  have hn : nanCount (otto_seed tb cas v).n = nanCount v.n := rfl
  have hp1 : spCount (otto_seed tb cas v).p1 = spCount v.p1 := rfl
  have hp2 : spCount (otto_seed tb cas v).p2 = spCount v.p2 := rfl
  have hp3 : spCount (otto_seed tb cas v).p3 = spCount v.p3 := rfl
  have hp4 : spCount (otto_seed tb cas v).p4 = spCount v.p4 := rfl
  unfold otto_count_nans
  omega

theorem diesel_seed_count_le {α : Type} [Inhabited α] (tb : Tables α)
    (cas : Bool) (v : DieselVars α) :
    diesel_count_nans (diesel_seed tb cas v) ≤ diesel_count_nans v := by
  have hgm : nanCount (diesel_seed tb cas v).gamma ≤ nanCount v.gamma :=
    nanCount_ite_ite_some_le _ _ _ _ _
  have hR : nanCount (diesel_seed tb cas v).R ≤ nanCount v.R :=
    nanCount_ite_some_le _ _ _
  have hcv : nanCount (diesel_seed tb cas v).cv ≤ nanCount v.cv :=
    nanCount_ite_some_le _ _ _
  have hcp : nanCount (diesel_seed tb cas v).cp ≤ nanCount v.cp :=
    nanCount_ite_some_le _ _ _
  have hr : nanCount (diesel_seed tb cas v).r = nanCount v.r := rfl
  have hrc : nanCount (diesel_seed tb cas v).rc = nanCount v.rc := rfl
  have hQh : nanCount (diesel_seed tb cas v).Qh = nanCount v.Qh := rfl
  have hQc : nanCount (diesel_seed tb cas v).Qc = nanCount v.Qc := rfl
  have hWi : nanCount (diesel_seed tb cas v).Wi = nanCount v.Wi := rfl
  have hWo : nanCount (diesel_seed tb cas v).Wo = nanCount v.Wo := rfl
  have hW : nanCount (diesel_seed tb cas v).W = nanCount v.W := rfl
  have hn : nanCount (diesel_seed tb cas v).n = nanCount v.n := rfl
  have hp1 : spCount (diesel_seed tb cas v).p1 = spCount v.p1 := rfl
  have hp2 : spCount (diesel_seed tb cas v).p2 = spCount v.p2 := rfl
  have hp3 : spCount (diesel_seed tb cas v).p3 = spCount v.p3 := rfl
  have hp4 : spCount (diesel_seed tb cas v).p4 = spCount v.p4 := rfl
  unfold diesel_count_nans
  omega

/-! ## Additional concrete instances for the claims -/

/-- Saturation-table oracle returning 0 everywhere: both objective endpoints
then equal `-known_var_value`, so the bracket has no sign change. -/
def lkZero : String → String → ℚ → String → ℚ := fun _ _ _ _ => 0

/-- Saturation-table oracle returning 2 everywhere: `var_f = var_g`. -/
def lkTwo : String → String → ℚ → String → ℚ := fun _ _ _ _ => 2

/-- A stand-in root-finder oracle (never reached in the claims below). -/
def brentZero : (ℚ → ℚ) → ℚ → ℚ → ℚ := fun _ _ _ => 0

/-- An Otto input with only the state-1 temperature known. -/
def ottoT1State : OttoVars ℤ :=
  { ottoEmpty with p1 := { spNone with T := some 300 } }

/-! ## The claims -/

/-- C1 (amended): for every initial variable set, the Otto and Diesel solve
loops terminate (`run_loop`'s fuel is total and, by
`run_loop_fuel_irrelevant`, semantically irrelevant); the loop performs at
most `max 1 (countUnknowns initial)` passes — the `while True:` body always
runs at least once, even on a fully known state, which is the one correction
to the claim's `countUnknowns(initial)` bound — and it stops exactly in a
stopping state: the result is the image of one final pass from a state `u`
with either zero unknowns remaining or no progress over `countUnknowns u`. -/
theorem solver_loop_termination_bound (α : Type) [Inhabited α]
    (ops : NumOps α) (tb : Tables α) (cas : Bool) (v : OttoVars α)
    (w : DieselVars α) :
    ((solve_otto_cycle ops tb cas v).2 ≤ max 1 (otto_count_nans v) ∧
      ∃ u, (solve_otto_cycle ops tb cas v).1 = otto_pass ops tb cas u ∧
        (otto_count_nans (solve_otto_cycle ops tb cas v).1 = 0 ∨
          otto_count_nans u ≤
            otto_count_nans (solve_otto_cycle ops tb cas v).1)) ∧
    ((solve_diesel_cycle ops tb cas w).2 ≤ max 1 (diesel_count_nans w) ∧
      ∃ u, (solve_diesel_cycle ops tb cas w).1 = diesel_pass ops tb cas u ∧
        (diesel_count_nans (solve_diesel_cycle ops tb cas w).1 = 0 ∨
          diesel_count_nans u ≤
            diesel_count_nans (solve_diesel_cycle ops tb cas w).1)) := by
  constructor
  · constructor
    · have h1 := run_loop_counter_le (otto_pass ops tb cas) otto_count_nans
        (otto_count_nans (otto_seed tb cas v) + 1)
        (otto_count_nans (otto_seed tb cas v)) (otto_seed tb cas v) (by omega)
      have h2 := otto_seed_count_le tb cas v
      have h3 : (solve_otto_cycle ops tb cas v).2 =
          (run_loop (otto_pass ops tb cas) otto_count_nans
            (otto_count_nans (otto_seed tb cas v) + 1)
            (otto_count_nans (otto_seed tb cas v)) (otto_seed tb cas v)).2 :=
        rfl
      omega
    · exact run_loop_final (otto_pass ops tb cas) otto_count_nans
        (otto_count_nans (otto_seed tb cas v) + 1) (otto_seed tb cas v)
        (by omega)
  · constructor
    · have h1 := run_loop_counter_le (diesel_pass ops tb cas)
        diesel_count_nans (diesel_count_nans (diesel_seed tb cas w) + 1)
        (diesel_count_nans (diesel_seed tb cas w)) (diesel_seed tb cas w)
        (by omega)
      have h2 := diesel_seed_count_le tb cas w
      have h3 : (solve_diesel_cycle ops tb cas w).2 =
          (run_loop (diesel_pass ops tb cas) diesel_count_nans
            (diesel_count_nans (diesel_seed tb cas w) + 1)
            (diesel_count_nans (diesel_seed tb cas w))
            (diesel_seed tb cas w)).2 := rfl
      omega
    · exact run_loop_final (diesel_pass ops tb cas) diesel_count_nans
        (diesel_count_nans (diesel_seed tb cas w) + 1) (diesel_seed tb cas w)
        (by omega)

/-- C1 counterexample to the claim as stated: on a fully known Otto input the
unknown count is 0, yet the loop still performs 1 pass (the Python `counter`
ends at 1), exceeding the claimed `countUnknowns(initial)` = 0 bound. -/
theorem solver_loop_extra_pass_counterexample :
    otto_count_nans ottoFull = 0 ∧
      (solve_otto_cycle intOps tbInt false ottoFull).2 = 1 := by decide

/-- C2: write-once — every cycle-level and state-point field holding a known
value keeps exactly that value across each rule block
(`system_variables`, `step_1` .. `step_4`), across one full pass and across
the whole solve, for both cycles: each per-field block is entered only while
the field is unknown, so a committed value is permanent within a solve. -/
theorem solver_write_once (α : Type) [Inhabited α] (ops : NumOps α)
    (tb : Tables α) (cas : Bool) (v : OttoVars α) (w : DieselVars α) :
    OttoExt v (solve_otto_cycle ops tb cas v).1 ∧
    OttoExt v (otto_system_variables ops cas v) ∧
    OttoExt v (otto_step_1 ops tb cas v) ∧
    OttoExt v (otto_step_2 ops tb cas v) ∧
    OttoExt v (otto_step_3 ops tb cas v) ∧
    OttoExt v (otto_step_4 ops tb cas v) ∧
    OttoExt v (otto_pass ops tb cas v) ∧
    DieselExt w (solve_diesel_cycle ops tb cas w).1 ∧
    DieselExt w (diesel_system_variables ops cas w) ∧
    DieselExt w (diesel_step_1 ops tb w) ∧
    DieselExt w (diesel_step_2 ops tb w) ∧
    DieselExt w (diesel_step_3 ops tb w) ∧
    DieselExt w (diesel_step_4 ops tb w) ∧
    DieselExt w (diesel_pass ops tb cas w) :=
  ⟨solve_otto_cycle_ext ops tb cas v, otto_system_variables_ext ops cas v,
    otto_step_1_ext ops tb cas v, otto_step_2_ext ops tb cas v,
    otto_step_3_ext ops tb cas v, otto_step_4_ext ops tb cas v,
    otto_pass_ext ops tb cas v, solve_diesel_cycle_ext ops tb cas w,
    diesel_system_variables_ext ops cas w, diesel_step_1_ext ops tb w,
    diesel_step_2_ext ops tb w, diesel_step_3_ext ops tb w,
    diesel_step_4_ext ops tb w, diesel_pass_ext ops tb cas w⟩

/-- C2 witness: the committed `r = 8` of a fully known Otto state survives
the whole solve unchanged. -/
theorem solver_write_once_witness :
    (solve_otto_cycle intOps tbInt false ottoFull).1.r = some 8 :=
  (solver_write_once ℤ intOps tbInt false ottoFull dieselFull).1.1 8 rfl

/-- C3 (amended): solving the spec §8 Otto input (`gamma`, `R`, `r`, `T1`,
`P1` known, general model) commits exactly the claimed isentropic
expressions — state-2 temperature `T1 * r ** (gamma - 1)` and pressure
`P1 * r ** gamma` — and commits `Wi = h(T2) - h(T1)` from the air table; but
the aggregate identities of the claim are not instantiated: `Qh`, `Qc`,
`Wo`, `W` and `n` all remain unknown, because this input set is
under-determined beyond state 2.  Computed over the free term algebra, so
the committed expressions are checked syntactically, simultaneously for
every arithmetic and every table. -/
theorem otto_spec_input_commits :
    (solve_otto_cycle freeOps freeTb false ottoSpecInputFree).1.p2.T =
      some (.mul (.fvar "T1")
        (.pow (.fvar "r") (.sub (.fvar "gamma") .lit1))) ∧
    (solve_otto_cycle freeOps freeTb false ottoSpecInputFree).1.p2.P =
      some (.mul (.fvar "P1") (.pow (.fvar "r") (.fvar "gamma"))) ∧
    (solve_otto_cycle freeOps freeTb false ottoSpecInputFree).1.Wi =
      some (.sub
        (.a7 "T"
          (.mul (.fvar "T1") (.pow (.fvar "r") (.sub (.fvar "gamma") .lit1)))
          "h")
        (.a7 "T" (.fvar "T1") "h")) ∧
    (solve_otto_cycle freeOps freeTb false ottoSpecInputFree).1.W = none ∧
    (solve_otto_cycle freeOps freeTb false ottoSpecInputFree).1.n = none := by
  decide

/-- C3 counterexample to the aggregate part of the claim as stated: for the
claim's own input set the converged state leaves `W`, `Qh`, `Qc`, `Wo` and
`n` unknown (NaN), so the converged state does not satisfy
`W = Qh - Qc = Wo - Wi` or `n = W / Qh` as equations between committed
values (in the code's float semantics `NaN == NaN` is false). -/
theorem otto_spec_input_aggregates_unknown :
    (solve_otto_cycle freeOps freeTb false ottoSpecInputFree).1.W = none ∧
    (solve_otto_cycle freeOps freeTb false ottoSpecInputFree).1.Qh = none ∧
    (solve_otto_cycle freeOps freeTb false ottoSpecInputFree).1.Qc = none ∧
    (solve_otto_cycle freeOps freeTb false ottoSpecInputFree).1.Wo = none ∧
    (solve_otto_cycle freeOps freeTb false ottoSpecInputFree).1.n = none := by
  decide

/-- C4: neither solver ever writes the state-1 temperature: after any solve
(any mode, any tables, any input) point 1's `T` equals its initial value —
in particular an initially unknown `T1` is still unknown, even though
`step_1` derives a local `T1` and uses it to fill `h1` and `u1`. -/
theorem solver_never_writes_state1_T (α : Type) [Inhabited α]
    (ops : NumOps α) (tb : Tables α) (cas : Bool) (v : OttoVars α)
    (w : DieselVars α) :
    (solve_otto_cycle ops tb cas v).1.p1.T = v.p1.T ∧
    (solve_diesel_cycle ops tb cas w).1.p1.T = w.p1.T :=
  ⟨solve_otto_cycle_p1T ops tb cas v, solve_diesel_cycle_p1T ops tb cas w⟩

/-- C5: for `0 < x < 1`, `vars_from_x_and_quality_var` raises the
bracketing `ValueError` — and never returns a state — whenever the
objective's values at the fluid's tabulated saturation bounds
(water: `[0.01, 374.14]`, R134a: `[-24, 100]`) do not have opposite signs:
the code's `objective(T_min) * objective(T_max) >= 0` test fires before any
root-finding. -/
theorem quality_bracketing_failure
    (lk8 lk9 : String → String → ℚ → String → ℚ)
    (brent : (ℚ → ℚ) → ℚ → ℚ → ℚ) (x kv : ℚ) (kvar : String)
    (hx0 : 0 < x) (hx1 : x < 1)
    (hvar : kvar = "v" ∨ kvar = "h" ∨ kvar = "s" ∨ kvar = "u") :
    (¬ OppositeSigns (quality_objective lk8 x kvar kv (1 / 100))
        (quality_objective lk8 x kvar kv (18707 / 50)) →
      vars_from_x_and_quality_var lk8 lk9 brent 8 x kvar kv =
        Except.error "ValueError: f(a) and f(b) must have different signs for root_scalar to work.") ∧
    (¬ OppositeSigns (quality_objective lk9 x kvar kv (-24))
        (quality_objective lk9 x kvar kv 100) →
      vars_from_x_and_quality_var lk8 lk9 brent 9 x kvar kv =
        Except.error "ValueError: f(a) and f(b) must have different signs for root_scalar to work.") := by
  have hx01 : ¬(x = 0 ∨ x = 1) := by rintro (rfl | rfl) <;> linarith
  constructor
  · intro hopp
    have hge : quality_objective lk8 x kvar kv (1 / 100) *
        quality_objective lk8 x kvar kv (18707 / 50) ≥ 0 :=
      mul_nonneg_of_not_oppositeSigns hopp
    unfold vars_from_x_and_quality_var
    rw [if_neg (not_not_intro hvar)]
    simp only [if_pos rfl, sat_bracket]
    rw [if_neg hx01]
    norm_num
    intro hlt
    linarith
  · intro hopp
    have hge : quality_objective lk9 x kvar kv (-24) *
        quality_objective lk9 x kvar kv 100 ≥ 0 :=
      mul_nonneg_of_not_oppositeSigns hopp
    unfold vars_from_x_and_quality_var
    rw [if_neg (not_not_intro hvar)]
    simp only [sat_bracket]
    rw [if_neg hx01]
    norm_num
    intro hlt
    linarith

/-- C5 witness: on the all-zero water table with target `h = 1` and
`x = 1/2` both bracket endpoints evaluate to `-1` (no sign change), and the
call returns exactly the bracketing `ValueError`. -/
theorem quality_bracketing_failure_witness :
    vars_from_x_and_quality_var lkZero lkZero brentZero 8 (1 / 2) "h" 1 =
      Except.error "ValueError: f(a) and f(b) must have different signs for root_scalar to work." := by
  have h := (quality_bracketing_failure lkZero lkZero brentZero (1 / 2) 1 "h"
    (by norm_num) (by norm_num) (Or.inr (Or.inl rfl))).1
  apply h
  norm_num [OppositeSigns, quality_objective, lkZero]

/-- C6 (amended): `x_from_PT_and_var` looks up `known_var ++ "f"` and
`known_var ++ "g"` at the given pressure or temperature and returns
`x = (knownValue - var_f) / (var_g - var_f)` — unconditionally: when
`var_f = var_g` no `CriticalPointDegeneracy` error exists in the code; the
division is performed anyway (numpy float semantics yield ±inf or NaN under
a `RuntimeWarning`; the rational model returns the zero-division
convention).  Only a bad `pt_type` or `apdx` raises. -/
theorem compute_quality_formula (lk8 lk9 : String → String → ℚ → String → ℚ)
    (apdx : Nat) (pt : String) (pv kv : ℚ) (kvar : String)
    (hpt : pt = "P" ∨ pt = "T") (hap : apdx = 8 ∨ apdx = 9) :
    x_from_PT_and_var lk8 lk9 apdx pt pv kvar kv =
      Except.ok ((kv -
          (if apdx = 8 then lk8 else lk9)
            (if pt = "P" then "Pressure" else "Temperature") pt pv
            (kvar ++ "f")) /
        ((if apdx = 8 then lk8 else lk9)
            (if pt = "P" then "Pressure" else "Temperature") pt pv
            (kvar ++ "g") -
          (if apdx = 8 then lk8 else lk9)
            (if pt = "P" then "Pressure" else "Temperature") pt pv
            (kvar ++ "f"))) := by
  rcases hpt with rfl | rfl <;> rcases hap with rfl | rfl <;>
    simp [x_from_PT_and_var]

/-- C6 counterexample to the claim as stated: on a degenerate table with
`var_f = var_g = 1` the call succeeds — it returns the quotient
`(3 - 1) / (1 - 1)` (float: inf with a warning; rational model: 0) instead
of failing with a `CriticalPointDegeneracy` error. -/
theorem compute_quality_no_error_on_degeneracy :
    x_from_PT_and_var lkOne lkOne 8 "P" 5 "h" 3 = Except.ok 0 := by
  norm_num [x_from_PT_and_var, lkOne]

/-- C6 witness: the amended formula at a concrete degenerate table
(`var_f = var_g = 2`). -/
theorem compute_quality_formula_witness :
    x_from_PT_and_var lkTwo lkTwo 9 "T" 4 "s" 5 =
      Except.ok ((5 - 2) / (2 - 2)) := by
  have h := compute_quality_formula lkTwo lkTwo 9 "T" 4 5 "s"
    (Or.inr rfl) (Or.inr rfl)
  simpa [lkTwo] using h

/-- C7: the code disagrees with the claim: a superheated-table query outside
the convex hull of the tabulated points (here `(5, 5)` against the triangle
`(0,0), (1,0), (0,1)`) returns `griddata`'s NaN fill value — the function
has no raise on that path — rather than an `OutOfRangeLookup` failure.  The
spec itself flags this (§9) and mandates the failure for reimplementation,
so the code, not the claim, is treated as wrong. -/
theorem superheated_out_of_hull_returns_nan :
    get_apdx_8c demoRows demoGrid (5, 5) = Interp2DResult.nan := by
  unfold get_apdx_8c demoRows demoGrid
  norm_num

/-- C8 (amended): for every table whose axis column is strictly increasing
(the code itself never sorts), the 1-D lookup equals the spec-side sorted
piecewise-linear interpolant, is exact at every tabulated row, and clamps
to the boundary target value below the first or above the last tabulated
axis value. -/
theorem lookup1D_sorted_interpolant (dx dy : List ℚ) (x : ℚ) (hne : dx ≠ [])
    (hlen : dx.length = dy.length) (hp : List.Pairwise (· < ·) dx) :
    np_interp dx dy x = some (spec_lookup1D (dx.zip dy) x) ∧
    (∀ p ∈ dx.zip dy, np_interp dx dy p.1 = some p.2) ∧
    (x < dx.headD 0 → np_interp dx dy x = some (dy.headD 0)) ∧
    (dx.getLastD 0 < x → np_interp dx dy x = some (dy.getLastD 0)) :=
  np_lookup1D_sorted dx dy x hne hlen hp

/-- C8 counterexample to the claim as stated: on the numeric, equal-length
but unsorted table with axis `[1, 0]` and target `[10, 20]`, `np.interp` at
`1/2` follows its boundary shortcut (`1/2 >` the last sample `0`) and
returns `20`, while the sorted piecewise-linear interpolant of the same
rows returns `15`. -/
theorem lookup1D_unsorted_counterexample :
    np_interp [1, 0] [10, 20] (1 / 2) = some 20 ∧
      spec_lookup1D [(1, 10), (0, 20)] (1 / 2) = 15 := by
  constructor
  · unfold np_interp
    norm_num [List.getLastD]
  · unfold spec_lookup1D sortByAxis
    norm_num [insertRow, piecewiseInterp]

/-- C8 witness: exact-row lookup on the sorted table
`[0, 1, 2] / [10, 20, 40]`. -/
theorem lookup1D_sorted_interpolant_witness :
    np_interp [0, 1, 2] [10, 20, 40] 1 = some 20 := by
  have h := (lookup1D_sorted_interpolant [0, 1, 2] [10, 20, 40] 1
    (by simp) rfl (by norm_num)).2.1 (1, 20) (by norm_num [List.zip])
  exact h

/-- C9 (amended): in cold-air-standard mode an unknown `cv` is seeded before
the rule passes begin with the temperature-dependent table value — but only
when the state-1 temperature is known.  When `T1` is unknown there is no
reference-condition fallback in either solver: `cv` is left untouched (the
rule passes never write it), correcting the claim's "else a fixed
reference-condition value". -/
theorem cv_seeding_requires_known_T1 (α : Type) [Inhabited α]
    (ops : NumOps α) (tb : Tables α) (v : OttoVars α) (w : DieselVars α)
    (t tw : α) :
    (v.cv = none → v.p1.T = some t →
      (solve_otto_cycle ops tb true v).1.cv =
        some (tb.apdx4 "Air" "T" t "cv")) ∧
    (v.p1.T = none → (solve_otto_cycle ops tb true v).1.cv = v.cv) ∧
    (w.cv = none → w.p1.T = some tw →
      (solve_diesel_cycle ops tb true w).1.cv =
        some (tb.apdx4 "Air" "T" tw "cv")) ∧
    (w.p1.T = none → (solve_diesel_cycle ops tb true w).1.cv = w.cv) := by
  refine ⟨?_, ?_, ?_, ?_⟩
  · intro hcv hT
    rw [solve_otto_cycle_cv]
    exact otto_seed_cv_of_T_some tb v t hcv hT
  · intro hT
    rw [solve_otto_cycle_cv]
    exact otto_seed_cv_of_T_none tb true v hT
  · intro hcv hT
    rw [solve_diesel_cycle_cv]
    exact diesel_seed_cv_of_T_some tb w tw hcv hT
  · intro hT
    rw [solve_diesel_cycle_cv]
    exact diesel_seed_cv_of_T_none tb true w hT

/-- C9 counterexample to the claim as stated: solving the all-unknown Otto
state in cold-air-standard mode leaves `cv` unknown — there is no seeding
from the fixed reference-condition table when `T1` is unknown, although the
claim asserts one. -/
theorem cv_reference_fallback_counterexample :
    (solve_otto_cycle intOps tbInt true ottoEmpty).1.cv = none := by decide

/-- C9 witness: with `T1 = 300` known and `cv` unknown, cold-air-standard
solving seeds `cv` with the temperature-dependent table value (the constant
synthetic table returns 3). -/
theorem cv_seeding_requires_known_T1_witness :
    (solve_otto_cycle intOps tbInt true ottoT1State).1.cv = some 3 :=
  (cv_seeding_requires_known_T1 ℤ intOps tbInt ottoT1State dieselEmpty
    300 300).1 rfl rfl

/-- C10: solving is idempotent on complete states: when the unknown-field
count is zero, the seeding is skipped, the single pass changes no field and
the loop stops at once, returning the state unchanged — for both cycles. -/
theorem solve_idempotent_on_complete (α : Type) [Inhabited α]
    (ops : NumOps α) (tb : Tables α) (cas : Bool) (v : OttoVars α)
    (w : DieselVars α) (hv : otto_count_nans v = 0)
    (hw : diesel_count_nans w = 0) :
    (solve_otto_cycle ops tb cas v).1 = v ∧
      (solve_diesel_cycle ops tb cas w).1 = w :=
  ⟨solve_otto_id ops tb cas v hv, solve_diesel_id ops tb cas w hw⟩

/-- C10 witness: concrete fully known Otto and Diesel states are returned
unchanged. -/
theorem solve_idempotent_on_complete_witness :
    (solve_otto_cycle intOps tbInt false ottoFull).1 = ottoFull ∧
      (solve_diesel_cycle intOps tbInt false dieselFull).1 = dieselFull :=
  solve_idempotent_on_complete ℤ intOps tbInt false ottoFull dieselFull
    (by decide) (by decide)
